import Mathlib

/-!
# GeoRasterLayer: a shallow embedding of `georaster-layer-for-leaflet.bundle.js`

Number model: JavaScript numbers are exact rationals (`ℚ`); IEEE rounding and signed zero
are not represented.  Where the source can leave the finite numbers (a division by zero,
an undefined operand) the result is a `Num`, or `none` for an array index.

`undefined` is `none` in `Value`.  The host objects the source only calls (the Leaflet map,
the grid layer base class, the projection library, the colour scale, the engine's
number-to-string conversion) are fields of `Host` and `ProjectionEnv`.

`createTile` defers its sampling loop with `setTimeout`.  The loop is modelled by the calls
it makes, in order.  The callback is a plain function that is not bound to the layer, so
its receiver `_this2` is the object the timer runs it with (the global object in a browser,
the timer object elsewhere): a `Receiver`, on which `projection`, `projector`, `options` and
`getColor` may all be undefined.  The value lists are read through the free identifier
`rasters`.  Both are parameters of the model.
-/

namespace GeoRasterLayer

/-- A raster cell or a sampled value: `none` is JavaScript `undefined`. -/
abbrev Value := Option ℚ

/-- The in-memory raster, indexed `[band][row][col]`. -/
abbrev Rasters := List (List (List Value))

/-- Errors the engine raises while running the sampling loop. -/
inductive JSError where
  | referenceError
  | typeError
  | thrown (message : String)
  deriving DecidableEq

/-- A point `{x, y}`: screen pixels for `L.point`, native or geographic coordinates for
the projector. -/
structure Point where
  x : ℚ
  y : ℚ
  deriving DecidableEq

/-- The result of `L.latLng(lat, lng)`. -/
structure LatLng where
  lat : ℚ
  lng : ℚ
  deriving DecidableEq

/-- The Leaflet bounds object: its south-west and north-east corners. -/
structure LatLngBounds where
  southWest : LatLng
  northEast : LatLng
  deriving DecidableEq

/-- `L.latLngBounds(corner1, corner2)`: Leaflet extends an empty bounds by both corners, so
the result is the smallest rectangle holding the two points. -/
def latLngBounds (corner1 corner2 : LatLng) : LatLngBounds :=
  { southWest := ⟨min corner1.lat corner2.lat, min corner1.lng corner2.lng⟩
    northEast := ⟨max corner1.lat corner2.lat, max corner1.lng corner2.lng⟩ }

def LatLngBounds.getWest (b : LatLngBounds) : ℚ := b.southWest.lng

def LatLngBounds.getEast (b : LatLngBounds) : ℚ := b.northEast.lng

def LatLngBounds.getSouth (b : LatLngBounds) : ℚ := b.southWest.lat

def LatLngBounds.getNorth (b : LatLngBounds) : ℚ := b.northEast.lat

/-- The object returned by `proj4(from, 'EPSG:4326')`. -/
structure Projector where
  forward : Point → Point
  inverse : Point → Point

/-- Tile grid coordinates handed to `createTile`. -/
structure Coords where
  x : ℚ
  y : ℚ
  z : ℚ

/-- `coords.scaleBy(tileSize)`. -/
def Coords.scaleBy (c : Coords) (tileSize : Point) : Point :=
  ⟨c.x * tileSize.x, c.y * tileSize.y⟩

/-- The fields of the `georaster` object that the layer reads. -/
structure GeoRaster where
  projection : ℤ
  xmin : ℚ
  xmax : ℚ
  ymin : ℚ
  ymax : ℚ
  pixelWidth : ℚ
  pixelHeight : ℚ
  noDataValue : Value
  mins : List ℚ
  ranges : List ℚ
  values : Option Rasters
  sourceType : String
  numberOfRasters : ℕ

/-- The recognised options.  `customDrawFunction` records only whether the hook is set: what
the hook draws is its own business, the engine only calls it. -/
structure Options where
  resolution : ℚ
  pixelValuesToColorFn : Option (List Value → Option String)
  customDrawFunction : Bool

/-- The layer object (`this`) once `initialize` has set every property.  `_pixelHeight` and
`_pixelWidth` are read by `getRasters` only; `none` is a property that was never assigned. -/
structure Layer where
  georaster : GeoRaster
  rasters : Option Rasters
  projection : ℤ
  projector : Option Projector
  _bounds : LatLngBounds
  _tileHeight : ℚ
  _tileWidth : ℚ
  options : Options
  _pixelHeight : Option ℚ
  _pixelWidth : Option ℚ

/-- A number that may fail to be finite: the results of `/`, `Math.ceil` and `Math.min`. -/
inductive Num where
  | fin (q : ℚ)
  | posInf
  | negInf
  | nan
  deriving DecidableEq

/-- `a / b` for finite operands. -/
def jsDiv (a b : ℚ) : Num :=
  if b = 0 then
    if 0 < a then .posInf else if a < 0 then .negInf else .nan
  else .fin (a / b)

/-- The collaborators outside the source file. -/
structure Host where
  /-- The map method `this._map.unproject(point, zoom)`. -/
  unproject : Point → ℚ → LatLng
  /-- The grid layer method `this._tileCoordsToBounds(coords)`. -/
  tileCoordsToBounds : Coords → LatLngBounds
  /-- The grid layer method `this.getTileSize()`. -/
  getTileSize : Point
  /-- The engine's conversion of a finite number to a string in `'rgb(' + v + ...`. -/
  numStr : ℚ → String
  /-- The colour scale `this.scale(t).hex()`. -/
  scaleHex : Num → String

/-- `Math.round`: the nearest integer, halves towards plus infinity. -/
def jsRound (q : ℚ) : ℤ := ⌊q + 1 / 2⌋

/-- `xs[i]` for an integer-valued index: `none` (undefined) outside the array. -/
def jsIndex {α : Type} (xs : List α) (i : ℤ) : Option α :=
  if 0 ≤ i then xs[i.toNat]? else none

/-- String conversion of an operand of `+`: `undefined` prints as such. -/
def valueStr (numStr : ℚ → String) : Value → String
  | none => "undefined"
  | some q => numStr q

/-- `a / b` on a possibly undefined numerator and a numeric literal divisor, printed:
an undefined numerator gives `NaN`. -/
def quotientStr (numStr : ℚ → String) (a : Value) (b : ℚ) : String :=
  match a with
  | none => "NaN"
  | some q => numStr (q / b)

/-- The position `(values[0] - mins[0]) / ranges[0]`: `NaN` when an operand is
undefined. -/
def scalePosition (value : Value) (min range : Option ℚ) : Num :=
  match value, min, range with
  | some v, some m, some r => jsDiv (v - m) r
  | _, _, _ => .nan

/-- `getColor(values)`, with `this` the layer. -/
def getColor (host : Host) (this : Layer) (values : List Value) : Option String :=
  match this.options.pixelValuesToColorFn with
  | some pixelValuesToColorFn => pixelValuesToColorFn values
  | none =>
    let mins := this.georaster.mins
    let noDataValue := this.georaster.noDataValue
    let ranges := this.georaster.ranges
    let numberOfValues := values.length
    let haveDataForAllBands :=
      values.all (fun value => decide (value ≠ none) && decide (value ≠ noDataValue))
    if haveDataForAllBands then
      if numberOfValues = 1 then
        some (host.scaleHex (scalePosition (values[0]?).join mins[0]? ranges[0]?))
      else if numberOfValues = 2 then
        some ("rgb(" ++ valueStr host.numStr (values[0]?).join ++ "," ++
          valueStr host.numStr (values[1]?).join ++ ",0)")
      else if numberOfValues = 3 then
        some ("rgb(" ++ valueStr host.numStr (values[0]?).join ++ "," ++
          valueStr host.numStr (values[1]?).join ++ "," ++
          valueStr host.numStr (values[2]?).join ++ ")")
      else if numberOfValues = 4 then
        some ("rgba(" ++ valueStr host.numStr (values[0]?).join ++ "," ++
          valueStr host.numStr (values[1]?).join ++ "," ++
          valueStr host.numStr (values[2]?).join ++ "," ++
          quotientStr host.numStr (values[3]?).join 255 ++ ")")
      else none
    else none

/-- The global identifier `proj4` as `initProjector` finds it. -/
inductive GlobalProj4 where
  /-- No global of that name is declared: reading it is a reference error. -/
  | undeclared
  /-- The global is declared and holds a falsy value. -/
  | falsy
  /-- The library is loaded: the projector `proj4(getProj4String(projection), 'EPSG:4326')`
  for each projection code. -/
  | loaded (proj4 : ℤ → Projector)

/-- What `utils/utm.js` and the global `proj4` provide to `initProjector` and `initBounds`. -/
structure ProjectionEnv where
  /-- The helper `isUTM(projection)`. -/
  isUTM : ℤ → Bool
  /-- The global `proj4`. -/
  proj4 : GlobalProj4

/-- `initProjector(georaster)`: the value left in `this.projector`. -/
def initProjector (env : ProjectionEnv) (georaster : GeoRaster) : Except JSError (Option Projector) :=
  let projection := georaster.projection
  if env.isUTM projection then
    match env.proj4 with
    | .undeclared => .error .referenceError
    | .falsy => .error (.thrown
        "proj4 must be found in the global scope in order to load a raster that uses a UTM projection")
    | .loaded proj4 => .ok (some (proj4 georaster.projection))
  else .ok none

/-- `initBounds(georaster)`: the value left in `this._bounds`, with `this.projector` as set
by `initProjector`. -/
def initBounds (env : ProjectionEnv) (projector : Option Projector) (georaster : GeoRaster) :
    Except JSError LatLngBounds :=
  let projection := georaster.projection
  let xmin := georaster.xmin
  let xmax := georaster.xmax
  let ymin := georaster.ymin
  let ymax := georaster.ymax
  if projection = 4326 then
    let minLatWest : LatLng := ⟨ymin, xmin⟩
    let maxLatEast : LatLng := ⟨ymax, xmax⟩
    .ok (latLngBounds minLatWest maxLatEast)
  else if env.isUTM projection then
    match projector with
    | none => .error .typeError
    | some projector =>
      let bottomLeft := projector.forward ⟨xmin, ymin⟩
      let minLatWest : LatLng := ⟨bottomLeft.y, bottomLeft.x⟩
      let topRight := projector.forward ⟨xmax, ymax⟩
      let maxLatEast : LatLng := ⟨topRight.y, topRight.x⟩
      .ok (latLngBounds minLatWest maxLatEast)
  else .error (.thrown
    "georaster-layer-for-leaflet does not support rasters with the current georaster's projection")

/-- The argument of the constructor: `resolution` is `none` when the option is not given. -/
structure InitOptions where
  georaster : GeoRaster
  resolution : Option ℚ
  pixelValuesToColorFn : Option (List Value → Option String)
  customDrawFunction : Bool

/-- What `initialize` leaves behind.  The body runs inside `try`/`catch`, so the constructor
returns normally in every case: `logged` is the error handed to `console.error`, `layer` the
layer object when every property was assigned before the error, if any, was thrown. -/
structure InitResult where
  layer : Option Layer
  logged : Option JSError

/-- The constructor hook `initialize(options)`. -/
def initLayer (env : ProjectionEnv) (host : Host) (options : InitOptions) : InitResult :=
  let resolution : ℚ :=
    match options.resolution with
    | none => 2 ^ 5
    | some r => if r = 0 then 2 ^ 5 else r
  let georaster := options.georaster
  match initProjector env georaster with
  | .error e => ⟨none, some e⟩
  | .ok projector =>
    match initBounds env projector georaster with
    | .error e => ⟨none, some e⟩
    | .ok bounds =>
      let tileSize := host.getTileSize
      let this : Layer :=
        { georaster := georaster
          rasters := georaster.values
          projection := georaster.projection
          projector := projector
          _bounds := bounds
          _tileHeight := tileSize.y
          _tileWidth := tileSize.x
          options := ⟨resolution, options.pixelValuesToColorFn, options.customDrawFunction⟩
          _pixelHeight := none
          _pixelWidth := none }
      if georaster.sourceType = "url" ∧ georaster.numberOfRasters = 1 ∧
          options.pixelValuesToColorFn.isNone then
        ⟨some this, some (.thrown
          "pixelValuesToColorFn is a required option for single-band rasters initialized via URL")⟩
      else ⟨some this, none⟩

/-- `getBounds()`. -/
def getBounds (this : Layer) : LatLngBounds := this._bounds

/-- `Math.floor(a / b)` used as an array index: `none` when the quotient is not a finite
number (an undefined or zero divisor). -/
def floorDiv (a : ℚ) (b : Option ℚ) : Option ℤ :=
  match b with
  | none => none
  | some d => if d = 0 then none else some ⌊a / d⌋

/-- The options object handed to `getRasters`. -/
structure GetRastersOptions where
  tileNwPoint : Point
  heightOfSampleInScreenPixels : ℚ
  widthOfSampleInScreenPixels : ℚ
  coords : Coords
  numberOfSamplesAcross : ℚ
  numberOfSamplesDown : ℚ
  ymax : ℚ
  xmin : ℚ

/-- The pair `{y, x}` returned by `rasterCoordsForTileCoords`; `none` is `NaN`. -/
structure RasterCoords where
  y : Option ℤ
  x : Option ℤ
  deriving DecidableEq

/-- The closure `rasterCoordsForTileCoords(h, w)` of `getRasters`; its `_this` is the layer
`getRasters` is called on.  The result is `none` (undefined) when the layer is neither
geographic nor has a projector.  The projector is called with the array `[lng, lat]` and
answers an array, on which the properties `x` and `y` that the source reads are undefined:
both indices are then `NaN`. -/
def rasterCoordsForTileCoords (host : Host) (this : Layer) (options : GetRastersOptions)
    (h w : ℚ) : Option RasterCoords :=
  let xCenterInMapPixels := options.tileNwPoint.x + (w + 1 / 2) * options.widthOfSampleInScreenPixels
  let yCenterInMapPixels := options.tileNwPoint.y + (h + 1 / 2) * options.heightOfSampleInScreenPixels
  let mapPoint : Point := ⟨xCenterInMapPixels, yCenterInMapPixels⟩
  let unproject := host.unproject mapPoint options.coords.z
  let lat := unproject.lat
  let lng := unproject.lng
  if this.projection = 4326 then
    some { y := floorDiv (options.ymax - lat) this._pixelHeight
           x := floorDiv (lng - options.xmin) this._pixelWidth }
  else
    match this.projector with
    | some _ => some { y := none, x := none }
    | none => none

/-- The request `getRasters` passes to `georaster.getValues`. -/
structure GetValuesOptions where
  bottom : Option ℤ
  height : ℚ
  left : Option ℤ
  right : Option ℤ
  top : Option ℤ
  width : ℚ

/-- `getRasters(options)` up to the call of `this.georaster.getValues`: the request made,
or the error of reading a property of an undefined corner. -/
def getRasters (host : Host) (this : Layer) (options : GetRastersOptions) :
    Except JSError GetValuesOptions :=
  match rasterCoordsForTileCoords host this options 0 0,
      rasterCoordsForTileCoords host this options (options.numberOfSamplesDown - 1)
        (options.numberOfSamplesAcross - 1) with
  | some topLeft, some bottomRight =>
    .ok { bottom := bottomRight.y
          height := options.numberOfSamplesDown
          left := topLeft.x
          right := bottomRight.x
          top := topLeft.y
          width := options.numberOfSamplesAcross }
  | _, _ => .error .typeError

/-- `Math.ceil`. -/
def mathCeil : Num → Num
  | .fin q => .fin ⌈q⌉
  | n => n

/-- `Math.min(a, b)` with `a` finite; `none` is an undefined second argument. -/
def mathMin (a : ℚ) : Option Num → Num
  | some (.fin q) => .fin (min a q)
  | some .posInf => .fin a
  | some .negInf => .negInf
  | some .nan => .nan
  | none => .nan

/-- The pair `rasterPixelsAcross`, `rasterPixelsDown` of `createTile`; `none` is the value
undefined that both keep when the layer is neither geographic nor has a projector. -/
def rasterPixels (this : Layer) (bounds : LatLngBounds) : Option Num × Option Num :=
  let pixelHeight := this.georaster.pixelHeight
  let pixelWidth := this.georaster.pixelWidth
  let minLngOfTile := bounds.getWest
  let maxLngOfTile := bounds.getEast
  let minLatOfTile := bounds.getSouth
  let maxLatOfTile := bounds.getNorth
  if this.projection = 4326 then
    (some (mathCeil (jsDiv (maxLngOfTile - minLngOfTile) pixelWidth)),
     some (mathCeil (jsDiv (maxLatOfTile - minLatOfTile) pixelHeight)))
  else
    match this.projector with
    | some projector =>
      let topLeft := projector.inverse ⟨minLngOfTile, maxLatOfTile⟩
      let topRight := projector.inverse ⟨maxLngOfTile, maxLatOfTile⟩
      let bottomLeft := projector.inverse ⟨minLngOfTile, minLatOfTile⟩
      let bottomRight := projector.inverse ⟨maxLngOfTile, minLatOfTile⟩
      (some (mathCeil (jsDiv (max (topRight.x - topLeft.x) (bottomRight.x - bottomLeft.x)) pixelWidth)),
       some (mathCeil (jsDiv (max (topLeft.y - bottomLeft.y) (topRight.y - bottomRight.y)) pixelHeight)))
    | none => (none, none)

/-- The local `numberOfSamplesAcross` of `createTile`. -/
def numberOfSamplesAcross (host : Host) (this : Layer) (coords : Coords) : Num :=
  mathMin this.options.resolution (rasterPixels this (host.tileCoordsToBounds coords)).1

/-- The local `numberOfSamplesDown` of `createTile`. -/
def numberOfSamplesDown (host : Host) (this : Layer) (coords : Coords) : Num :=
  mathMin this.options.resolution (rasterPixels this (host.tileCoordsToBounds coords)).2

/-- The locals of `createTile` that the deferred callback closes over, for finite sample
counts.  A sample size is only read inside the loop over its axis, which runs only for a
positive count, so the quotient by a zero count is never read. -/
structure TileScope where
  pixelHeight : ℚ
  pixelWidth : ℚ
  xmin : ℚ
  ymax : ℚ
  minLng : ℚ
  maxLng : ℚ
  maxLat : ℚ
  minLat : ℚ
  numberOfSamplesAcross : ℚ
  numberOfSamplesDown : ℚ
  heightOfSampleInScreenPixels : ℚ
  heightOfSampleInScreenPixelsInt : ℤ
  widthOfSampleInScreenPixels : ℚ
  widthOfSampleInScreenPixelsInt : ℤ
  tileNwPoint : Point
  coords : Coords

/-- The synchronous part of `createTile` for finite sample counts `across` and `down`. -/
def tileScope (host : Host) (this : Layer) (coords : Coords) (across down : ℚ) : TileScope :=
  let georaster := this.georaster
  let heightOfSampleInScreenPixels := this._tileHeight / down
  let widthOfSampleInScreenPixels := this._tileWidth / across
  let tileSize := host.getTileSize
  { pixelHeight := georaster.pixelHeight
    pixelWidth := georaster.pixelWidth
    xmin := georaster.xmin
    ymax := georaster.ymax
    minLng := this._bounds.getWest
    maxLng := this._bounds.getEast
    maxLat := this._bounds.getNorth
    minLat := this._bounds.getSouth
    numberOfSamplesAcross := across
    numberOfSamplesDown := down
    heightOfSampleInScreenPixels := heightOfSampleInScreenPixels
    heightOfSampleInScreenPixelsInt := ⌈heightOfSampleInScreenPixels⌉
    widthOfSampleInScreenPixels := widthOfSampleInScreenPixels
    widthOfSampleInScreenPixelsInt := ⌈widthOfSampleInScreenPixels⌉
    tileNwPoint := coords.scaleBy tileSize
    coords := coords }

/-- A call the sampling loop makes on the rendering surface or on the custom draw hook. -/
inductive DrawCall where
  | customDraw (values : List Value) (x y width height : ℤ)
  | fillRect (color : String) (x y width height : ℤ)
  deriving DecidableEq

/-- The outcome of a piece of the sampling loop: the calls made, in order, and the error
that stopped it, if one was thrown. -/
structure TileResult where
  calls : List DrawCall
  error : Option JSError
  deriving DecidableEq

/-- A `for` loop over the given indices: the bodies run in order until one throws. -/
def forLoop (body : ℕ → TileResult) : List ℕ → TileResult
  | [] => ⟨[], none⟩
  | i :: rest =>
    match (body i).error with
    | some e => ⟨(body i).calls, some e⟩
    | none => ⟨(body i).calls ++ (forLoop body rest).calls, (forLoop body rest).error⟩

/-- The indices `0, 1, ...` below a finite bound: those a loop `for (i = 0; i < n; i++)`
visits. -/
def indicesBelow (n : ℚ) : List ℕ := List.range ⌈n⌉.toNat

/-- The point `latWestPoint` of `_loop(h)`: the west edge of the tile at the height of the
sample row's centre. -/
def latWestPoint (s : TileScope) (h : ℕ) : Point :=
  ⟨s.tileNwPoint.x, s.tileNwPoint.y + ((h : ℚ) + 1 / 2) * s.heightOfSampleInScreenPixels⟩

/-- The point `latLngPoint` of `_loop2(w)`: the screen-pixel centre of sample `(h, w)`.  The
source computes it and does not read it again. -/
def latLngPoint (s : TileScope) (h w : ℕ) : Point :=
  ⟨s.tileNwPoint.x + ((w : ℚ) + 1 / 2) * s.widthOfSampleInScreenPixels,
   s.tileNwPoint.y + ((h : ℚ) + 1 / 2) * s.heightOfSampleInScreenPixels⟩

/-- The receiver `_this2` of the deferred callback, by the properties the loop reads on it;
`none` is a property the receiver does not have. -/
structure Receiver where
  projection : Option ℤ
  projector : Option Projector
  options : Option Options
  getColor : Option (List Value → Option String)

/-- The receiver the callback would have were it bound to the layer. -/
def Layer.receiver (this : Layer) (host : Host) : Receiver :=
  { projection := some this.projection
    projector := this.projector
    options := some this.options
    getColor := some (getColor host this) }

/-- The receiver the callback has: the timer's own object, which has none of the layer's
properties. -/
def timerReceiver : Receiver :=
  { projection := none
    projector := none
    options := none
    getColor := none }

/-- The initial `yInRasterPixels` of a row: set in `_loop` when the receiver's projection is
4326, `null` (`none`) otherwise.  The floor is taken in exact arithmetic. -/
def rowIndex (_this2 : Receiver) (s : TileScope) (lat : ℚ) : Option ℤ :=
  if _this2.projection = some 4326 then floorDiv (s.maxLat - lat) (some s.pixelHeight)
  else none

/-- The pair (`yInRasterPixels`, `xInRasterPixels`) after the index conversion of `_loop2`,
given the row's `yInRasterPixels`. -/
def cellIndices (_this2 : Receiver) (s : TileScope) (lat lng : ℚ)
    (yInRasterPixels : Option ℤ) : Option ℤ × Option ℤ :=
  if _this2.projection = some 4326 then
    (yInRasterPixels, floorDiv (lng - s.minLng) (some s.pixelWidth))
  else
    match _this2.projector with
    | some projector =>
      let inverted := projector.inverse ⟨lng, lat⟩
      let xInSrc := inverted.x
      let yInSrc := inverted.y
      (floorDiv (s.ymax - yInSrc) (some s.pixelHeight), floorDiv (xInSrc - s.xmin) (some s.pixelWidth))
    | none => (yInRasterPixels, none)

/-- `xs[i]` for an index that may be no array index at all (`null`, undefined, `NaN`). -/
def jsIndex? {α : Type} (xs : List α) (i : Option ℤ) : Option α :=
  match i with
  | some k => jsIndex xs k
  | none => none

/-- `rasters.map(function (raster) { return raster[yInRasterPixels][xInRasterPixels]; })`.
The identifier `rasters` is declared neither in the callback, nor in `createTile`, nor at
the top of the file: `rasters` is `none` when no global of that name exists, and reading it
is then a reference error.  A missing row is undefined, and indexing it a type error. -/
def sampleValues (rasters : Option Rasters) (yInRasterPixels xInRasterPixels : Option ℤ) :
    Except JSError (List Value) :=
  match rasters with
  | none => .error .referenceError
  | some rasters =>
    rasters.mapM (fun raster =>
      match jsIndex? raster yInRasterPixels with
      | none => .error .typeError
      | some row => .ok (jsIndex? row xInRasterPixels).join)

/-- The body `_loop2(w)` of the inner loop, inside `_loop(h)` with its locals `unproject`,
`lat`, `yInTilePixels` and `yInRasterPixels`.  `tileRasters` is `null` throughout.  Reading
`customDrawFunction` on undefined `options`, or calling an undefined `getColor`, is a type
error. -/
def _loop2 (_this2 : Receiver) (rasters : Option Rasters) (s : TileScope)
    (unproject : LatLng) (lat : ℚ) (yInTilePixels : ℤ) (yInRasterPixels : Option ℤ) (w : ℕ) :
    TileResult :=
  let lng := unproject.lng
  if lng > s.minLng ∧ lng < s.maxLng then
    let indices := cellIndices _this2 s lat lng yInRasterPixels
    match sampleValues rasters indices.1 indices.2 with
    | .error e => ⟨[], some e⟩
    | .ok values =>
      let x := jsRound ((w : ℚ) * s.widthOfSampleInScreenPixels)
      let y := yInTilePixels
      let width := s.widthOfSampleInScreenPixelsInt
      let height := s.heightOfSampleInScreenPixelsInt
      match _this2.options with
      | none => ⟨[], some .typeError⟩
      | some options =>
        if options.customDrawFunction then
          ⟨[.customDraw values x y width height], none⟩
        else
          match _this2.getColor with
          | none => ⟨[], some .typeError⟩
          | some getColor =>
            match getColor values with
            | some color =>
              if color ≠ "" then ⟨[.fillRect color x y width height], none⟩ else ⟨[], none⟩
            | none => ⟨[], none⟩
  else ⟨[], none⟩

/-- The body `_loop(h)` of the outer loop. -/
def _loop (host : Host) (_this2 : Receiver) (rasters : Option Rasters) (s : TileScope)
    (h : ℕ) : TileResult :=
  let unproject := host.unproject (latWestPoint s h) s.coords.z
  let lat := unproject.lat
  if lat > s.minLat ∧ lat < s.maxLat then
    let yInTilePixels := jsRound ((h : ℚ) * s.heightOfSampleInScreenPixels)
    let yInRasterPixels := rowIndex _this2 s lat
    forLoop (_loop2 _this2 rasters s unproject lat yInTilePixels yInRasterPixels)
      (indicesBelow s.numberOfSamplesAcross)
  else ⟨[], none⟩

/-- The callback `createTile` hands to `setTimeout`, up to the call of `done`.  `_this2` is
the receiver the timer runs the callback with, `rasters` the global of that name, if any. -/
def deferred (host : Host) (_this2 : Receiver) (rasters : Option Rasters) (s : TileScope) :
    TileResult :=
  forLoop (_loop host _this2 rasters s) (indicesBelow s.numberOfSamplesDown)

/-- `createTile(coords, done)`: the calls made on the tile's canvas and the error thrown,
if any, once the deferred callback has run.  `this` is the layer `createTile` is called on,
`_this2` the receiver of the deferred callback, `rasters` the global of that name, if any.
With a sample count that is not finite (`NaN` or minus infinity) no loop body runs. -/
def createTile (host : Host) (this : Layer) (_this2 : Receiver) (rasters : Option Rasters)
    (coords : Coords) : TileResult :=
  match numberOfSamplesAcross host this coords, numberOfSamplesDown host this coords with
  | .fin across, .fin down => deferred host _this2 rasters (tileScope host this coords across down)
  | _, _ => ⟨[], none⟩

/-! ## Concrete collaborators and inputs -/

/-- The digits after the decimal point of `r / d` for `r < d`, at most `fuel` of them. -/
def fractionDigits : ℕ → ℕ → ℕ → List Char
  | 0, _, _ => []
  | fuel + 1, r, d =>
    if r = 0 then [] else Nat.digitChar (r * 10 / d) :: fractionDigits fuel (r * 10 % d) d

/-- A number-to-string conversion for the concrete hosts: plain decimal notation.  It is the
engine's conversion on integers and on decimals that terminate within seventeen places
(below the magnitudes where the engine turns to exponents), and a stand-in elsewhere. -/
def decimalString (q : ℚ) : String :=
  let n := q.num.natAbs
  let d := q.den
  (if q < 0 then "-" else "") ++ toString (n / d) ++
    (if n % d = 0 then "" else "." ++ String.mk (fractionDigits 17 (n % d) d))

/-- A host whose unprojection is affine: the tile with north-west pixel `origin`, of
`size` pixels, covers longitudes from `west` to `east` and latitudes from `north` down to
`south`, at every zoom. -/
def affineHost (origin size : Point) (west east south north : ℚ) : Host :=
  { unproject := fun p _ =>
      ⟨north - (p.y - origin.y) * (north - south) / size.y,
       west + (p.x - origin.x) * (east - west) / size.x⟩
    tileCoordsToBounds := fun _ => latLngBounds ⟨south, west⟩ ⟨north, east⟩
    getTileSize := size
    numStr := decimalString
    scaleHex := fun t =>
      match t with
      | .fin q => "scale(" ++ decimalString q ++ ")"
      | _ => "#cccccc" }

/-- A geographic single-band georaster of `rows` by `cols` cells of size one, every cell
holding `cell`, with its south-west corner at (`xmin`, `ymin`). -/
def flatRaster (xmin ymin : ℚ) (cols rows : ℕ) (cell : ℚ) : GeoRaster :=
  { projection := 4326
    xmin := xmin
    xmax := xmin + cols
    ymin := ymin
    ymax := ymin + rows
    pixelWidth := 1
    pixelHeight := 1
    noDataValue := some (-9999)
    mins := [0]
    ranges := [10]
    values := some [List.replicate rows (List.replicate cols (some cell))]
    sourceType := "memory"
    numberOfRasters := 1 }

/-- No projection helper recognises a code and no `proj4` is loaded: enough for geographic
rasters. -/
def geographicEnv : ProjectionEnv := ⟨fun _ => false, .undeclared⟩

/-- The layer of the scenario: the raster `xmin = -10, xmax = 10, ymin = -5, ymax = 5` with
cells of size one, one band, `mins = [0]`, `ranges = [10]`, and `resolution = 20`. -/
def scenarioLayer : Layer :=
  { georaster := flatRaster (-10) (-5) 20 10 5
    rasters := (flatRaster (-10) (-5) 20 10 5).values
    projection := 4326
    projector := none
    _bounds := latLngBounds ⟨-5, -10⟩ ⟨5, 10⟩
    _tileHeight := 256
    _tileWidth := 256
    options := ⟨20, none, false⟩
    _pixelHeight := none
    _pixelWidth := none }

/-- The host of the scenario: a 256 pixel tile whose footprint is exactly longitudes
`-10..10` and latitudes `-5..5`. -/
def scenarioHost : Host := affineHost ⟨0, 0⟩ ⟨256, 256⟩ (-10) 10 (-5) 5

/-- Modelled from the spec: `utils/utm.js` and the global `proj4` are not among the sources,
and the spec says only that the recognised codes denote UTM zones.  This environment
recognises the EPSG codes of the UTM zones, 32601 to 32660 and 32701 to 32760, and has
`proj4` return the given projector for each of them. -/
def utmEnv (projector : Projector) : ProjectionEnv :=
  { isUTM := fun p => decide ((32601 ≤ p ∧ p ≤ 32660) ∨ (32701 ≤ p ∧ p ≤ 32760))
    proj4 := .loaded (fun _ => projector) }

/-- A projector that shears: `forward (x, y) = (x + y, y)`, `inverse (lng, lat) =
(lng - lat, lat)`.  The two maps are mutually inverse. -/
def shearProjector : Projector :=
  { forward := fun p => ⟨p.x + p.y, p.y⟩
    inverse := fun p => ⟨p.x - p.y, p.y⟩ }

/-- A projector that scales each axis: `forward (x, y) = (x / 100000, y / 100000)`. -/
def scaleProjector : Projector :=
  { forward := fun p => ⟨p.x / 100000, p.y / 100000⟩
    inverse := fun p => ⟨p.x * 100000, p.y * 100000⟩ }

/-- A single-band raster in UTM zone 33N: `cols` by `rows` cells of size `pixel`, with its
south-west corner at the native origin. -/
def utmRaster (cols rows : ℕ) (pixel : ℚ) : GeoRaster :=
  { projection := 32633
    xmin := 0
    xmax := cols * pixel
    ymin := 0
    ymax := rows * pixel
    pixelWidth := pixel
    pixelHeight := pixel
    noDataValue := some (-9999)
    mins := [0]
    ranges := [10]
    values := some [List.replicate rows (List.replicate cols (some 5))]
    sourceType := "memory"
    numberOfRasters := 1 }

/-- The layer over `georaster` with projector `projector` and bounds `bounds`, drawing
through the custom hook, on 256 pixel tiles with `resolution = 2`. -/
def projectedLayer (georaster : GeoRaster) (projector : Projector) (bounds : LatLngBounds) :
    Layer :=
  { georaster := georaster
    rasters := georaster.values
    projection := georaster.projection
    projector := some projector
    _bounds := bounds
    _tileHeight := 256
    _tileWidth := 256
    options := ⟨2, none, true⟩
    _pixelHeight := none
    _pixelWidth := none }

/-- A two by two raster of cells of size one half under the shear: the forward images of
its corners `(0, 0)` and `(1, 1)` are `(0, 0)` and `(2, 1)`. -/
def shearLayer : Layer :=
  projectedLayer (utmRaster 2 2 (1 / 2)) shearProjector (latLngBounds ⟨0, 0⟩ ⟨1, 2⟩)

/-- A two by two raster of cells of 50000 units under the scaling projector: the forward
images of its corners are `(0, 0)` and `(1, 1)`. -/
def scaleLayer : Layer :=
  projectedLayer (utmRaster 2 2 50000) scaleProjector (latLngBounds ⟨0, 0⟩ ⟨1, 1⟩)

/-- The coordinate lies in the closed rectangle of the bounds (Leaflet's `contains`). -/
def LatLngBounds.contains (b : LatLngBounds) (c : LatLng) : Prop :=
  b.getSouth ≤ c.lat ∧ c.lat ≤ b.getNorth ∧ b.getWest ≤ c.lng ∧ c.lng ≤ b.getEast

instance (b : LatLngBounds) (c : LatLng) : Decidable (b.contains c) := by
  unfold LatLngBounds.contains
  infer_instance

/-- The screen point lies on the tile's canvas: the rectangle of `_tileWidth` by
`_tileHeight` pixels whose north-west corner is `tileNwPoint`. -/
def onTile (this : Layer) (tileNwPoint p : Point) : Prop :=
  tileNwPoint.x ≤ p.x ∧ p.x ≤ tileNwPoint.x + this._tileWidth ∧
    tileNwPoint.y ≤ p.y ∧ p.y ≤ tileNwPoint.y + this._tileHeight

/-- A host whose 256 pixel tile covers longitudes `20..40` and latitudes `-5..5`: east of
the scenario raster. -/
def eastHost : Host := affineHost ⟨0, 0⟩ ⟨256, 256⟩ 20 40 (-5) 5

/-- The layer `initialize` builds over the ten by ten raster of cells of size one with
corners `(0, 0)` and `(10, 10)`, every cell holding 5, on 256 pixel tiles. -/
def squareLayer (resolution : ℚ) (customDrawFunction : Bool) : Layer :=
  { georaster := flatRaster 0 0 10 10 5
    rasters := (flatRaster 0 0 10 10 5).values
    projection := 4326
    projector := none
    _bounds := latLngBounds ⟨0, 0⟩ ⟨10, 10⟩
    _tileHeight := 256
    _tileWidth := 256
    options := ⟨resolution, none, customDrawFunction⟩
    _pixelHeight := none
    _pixelWidth := none }

/-- A host whose 256 pixel tile covers longitudes `-5..15` and latitudes `0..10`: the
square raster lies in the middle of the tile. -/
def wideHost : Host := affineHost ⟨0, 0⟩ ⟨256, 256⟩ (-5) 15 0 10

/-- A host whose 256 pixel tile covers longitudes `5..9` and latitudes `2..6`: the tile lies
inside the square raster. -/
def insideHost : Host := affineHost ⟨0, 0⟩ ⟨256, 256⟩ 5 9 2 6

/-- A host whose 256 pixel tile covers longitudes `0..1` and latitudes `19/2..21/2`: the
tile's west edge is the raster's west edge and its middle height the raster's top. -/
def originHost : Host := affineHost ⟨0, 0⟩ ⟨256, 256⟩ 0 1 (19 / 2) (21 / 2)

/-- A host whose 256 pixel tile covers longitudes `-1/2..1/2` and latitudes `19/2..21/2`:
the tile's centre is the origin of the square raster. -/
def centreHost : Host := affineHost ⟨0, 0⟩ ⟨256, 256⟩ (-1 / 2) (1 / 2) (19 / 2) (21 / 2)

/-- The options `getRasters` receives for one sample covering that whole tile. -/
def centreOptions : GetRastersOptions :=
  { tileNwPoint := ⟨0, 0⟩
    heightOfSampleInScreenPixels := 256
    widthOfSampleInScreenPixels := 256
    coords := ⟨0, 0, 0⟩
    numberOfSamplesAcross := 1
    numberOfSamplesDown := 1
    ymax := 10
    xmin := 0 }

/-- The scenario layer with `ranges = [100]` in place of `[10]`. -/
def percentLayer : Layer :=
  { scenarioLayer with georaster := { scenarioLayer.georaster with ranges := [100] } }

/-- The scenario layer with a `pixelValuesToColorFn` that answers red for every list. -/
def redLayer : Layer :=
  { scenarioLayer with options := ⟨20, some (fun _ => some "#ff0000"), false⟩ }

/-- A destination rectangle on the tile's canvas, as handed to `fillRect` or to the custom
draw hook. -/
structure Rect where
  x : ℤ
  y : ℤ
  width : ℤ
  height : ℤ
  deriving DecidableEq

/-- The rectangle `_loop2` computes for sample `(h, w)`: `x = Math.round(w *
widthOfSampleInScreenPixels)`, `y = yInTilePixels = Math.round(h *
heightOfSampleInScreenPixels)`, and the rounded-up sample size. -/
def destinationRect (s : TileScope) (h w : ℕ) : Rect :=
  { x := jsRound ((w : ℚ) * s.widthOfSampleInScreenPixels)
    y := jsRound ((h : ℚ) * s.heightOfSampleInScreenPixels)
    width := s.widthOfSampleInScreenPixelsInt
    height := s.heightOfSampleInScreenPixelsInt }

/-- The canvas pixel in column `px` and row `py` lies in the rectangle: a rectangle at
`(x, y)` of size `width` by `height` holds the columns `x .. x + width - 1` and the rows
`y .. y + height - 1`. -/
def Rect.covers (r : Rect) (px py : ℤ) : Prop :=
  r.x ≤ px ∧ px < r.x + r.width ∧ r.y ≤ py ∧ py < r.y + r.height

instance (r : Rect) (px py : ℤ) : Decidable (r.covers px py) := by
  unfold Rect.covers
  infer_instance

/-- The square layer with both hooks configured: `customDrawFunction` and a
`pixelValuesToColorFn` that answers red. -/
def hookLayer : Layer :=
  { squareLayer 2 true with options := ⟨2, some (fun _ => some "#ff0000"), true⟩ }

/-- The square raster with another projection code. -/
def recodedRaster (projection : ℤ) : GeoRaster :=
  { flatRaster 0 0 10 10 5 with projection := projection }

/-- The square raster as a single-band raster opened from a URL: no in-memory values. -/
def urlRaster : GeoRaster :=
  { flatRaster 0 0 10 10 5 with values := none, sourceType := "url" }

/-- A single-band UTM raster opened from a URL: two by two cells of 50000 units, no
in-memory values. -/
def urlUtmRaster : GeoRaster :=
  { utmRaster 2 2 50000 with values := none, sourceType := "url" }

/-- A host whose 256 pixel tile covers longitudes `1/4..3/4` and latitudes `1/4..3/4`:
inside the bounds of the scaled UTM raster. -/
def utmInsideHost : Host := affineHost ⟨0, 0⟩ ⟨256, 256⟩ (1 / 4) (3 / 4) (1 / 4) (3 / 4)

/-! ## Theorems -/

/-- The default colour mapper sees no data as soon as one entry fails the test. -/
theorem all_false_of_mem {α : Type} (p : α → Bool) (xs : List α) (x : α) (hx : x ∈ xs)
    (hp : p x = false) : xs.all p = false := by
  rw [List.all_eq_false]
  exact ⟨x, hx, by simp [hp]⟩

/-- C9: with no `pixelValuesToColorFn`, `getColor` returns no colour for every value list
in which at least one entry equals the raster's `noDataValue` or is undefined, whatever the
other entries and the number of bands. -/
theorem getColor_noData_none (host : Host) (this : Layer) (values : List Value)
    (hfn : this.options.pixelValuesToColorFn = none)
    (hbad : ∃ v ∈ values, v = this.georaster.noDataValue ∨ v = none) :
    getColor host this values = none := by
  obtain ⟨v, hv, hcase⟩ := hbad
  have hall : values.all (fun value =>
      decide (value ≠ none) && decide (value ≠ this.georaster.noDataValue)) = false := by
    apply all_false_of_mem _ _ v hv
    rcases hcase with h | h <;> simp [h]
  unfold getColor
  rw [hfn]
  simp only [hall]
  rfl

/-- C9, at `noDataValue = -9999` and `values = [-9999]`. -/
theorem getColor_noData_none_witness :
    getColor scenarioHost scenarioLayer [some (-9999)] = none :=
  getColor_noData_none scenarioHost scenarioLayer [some (-9999)] rfl
    ⟨some (-9999), by simp, Or.inl rfl⟩

/-- C10: with no `pixelValuesToColorFn` and every value present and different from
`noDataValue`, `getColor` returns `rgb(v0,v1,0)` for two values, `rgb(v0,v1,v2)` for three
and `rgba(v0,v1,v2,a)` with `a = v3 / 255` for four, each number printed by the engine's
number-to-string conversion. -/
theorem getColor_rgb (host : Host) (this : Layer)
    (hfn : this.options.pixelValuesToColorFn = none) :
    (∀ v0 v1 : ℚ, some v0 ≠ this.georaster.noDataValue → some v1 ≠ this.georaster.noDataValue →
      getColor host this [some v0, some v1] =
        some ("rgb(" ++ host.numStr v0 ++ "," ++ host.numStr v1 ++ ",0)")) ∧
    (∀ v0 v1 v2 : ℚ, some v0 ≠ this.georaster.noDataValue →
      some v1 ≠ this.georaster.noDataValue → some v2 ≠ this.georaster.noDataValue →
      getColor host this [some v0, some v1, some v2] =
        some ("rgb(" ++ host.numStr v0 ++ "," ++ host.numStr v1 ++ "," ++
          host.numStr v2 ++ ")")) ∧
    (∀ v0 v1 v2 v3 : ℚ, some v0 ≠ this.georaster.noDataValue →
      some v1 ≠ this.georaster.noDataValue → some v2 ≠ this.georaster.noDataValue →
      some v3 ≠ this.georaster.noDataValue →
      getColor host this [some v0, some v1, some v2, some v3] =
        some ("rgba(" ++ host.numStr v0 ++ "," ++ host.numStr v1 ++ "," ++
          host.numStr v2 ++ "," ++ host.numStr (v3 / 255) ++ ")")) := by
  refine ⟨?_, ?_, ?_⟩
  · intro v0 v1 h0 h1
    simp [getColor, hfn, h0, h1, valueStr]
  · intro v0 v1 v2 h0 h1 h2
    simp [getColor, hfn, h0, h1, h2, valueStr]
  · intro v0 v1 v2 v3 h0 h1 h2 h3
    simp [getColor, hfn, h0, h1, h2, h3, valueStr, quotientStr]

/-- C10, at `[10, 20, 30]` and `[1, 2, 3, 51]` with decimal printing: exactly
`rgb(10,20,30)` and `rgba(1,2,3,0.2)`. -/
theorem getColor_rgb_witness :
    getColor scenarioHost scenarioLayer [some 10, some 20, some 30] = some "rgb(10,20,30)" ∧
      getColor scenarioHost scenarioLayer [some 1, some 2, some 3, some 51] =
        some "rgba(1,2,3,0.2)" :=
  ⟨((getColor_rgb scenarioHost scenarioLayer rfl).2.1 10 20 30 (by decide!) (by decide!)
      (by decide!)).trans (by decide!),
   ((getColor_rgb scenarioHost scenarioLayer rfl).2.2 1 2 3 51 (by decide!) (by decide!)
      (by decide!) (by decide!)).trans (by decide!)⟩

/-- C1: for a geographic layer with non-zero pixel sizes, `createTile` takes
`numberOfSamplesAcross = min(resolution, rasterPixelsAcross)` and
`numberOfSamplesDown = min(resolution, rasterPixelsDown)`, where `rasterPixelsAcross` and
`rasterPixelsDown` are the ceilings of the tile's longitude span over `pixelWidth` and of
its latitude span over `pixelHeight`; each count is at most the cap and at most the number
of raster pixels the tile spans. -/
theorem createTile_sample_counts (host : Host) (this : Layer) (coords : Coords)
    (hproj : this.projection = 4326) (hw : this.georaster.pixelWidth ≠ 0)
    (hh : this.georaster.pixelHeight ≠ 0) :
    ∃ rasterPixelsAcross rasterPixelsDown : ℤ, ∃ across down : ℚ,
      rasterPixelsAcross = ⌈((host.tileCoordsToBounds coords).getEast -
        (host.tileCoordsToBounds coords).getWest) / this.georaster.pixelWidth⌉ ∧
      rasterPixelsDown = ⌈((host.tileCoordsToBounds coords).getNorth -
        (host.tileCoordsToBounds coords).getSouth) / this.georaster.pixelHeight⌉ ∧
      rasterPixels this (host.tileCoordsToBounds coords) =
        (some (.fin rasterPixelsAcross), some (.fin rasterPixelsDown)) ∧
      numberOfSamplesAcross host this coords = .fin across ∧
      numberOfSamplesDown host this coords = .fin down ∧
      across = min this.options.resolution rasterPixelsAcross ∧
      down = min this.options.resolution rasterPixelsDown ∧
      across ≤ this.options.resolution ∧ across ≤ rasterPixelsAcross ∧
      down ≤ this.options.resolution ∧ down ≤ rasterPixelsDown := by
  have hpix : rasterPixels this (host.tileCoordsToBounds coords) =
      (some (.fin ((⌈((host.tileCoordsToBounds coords).getEast -
          (host.tileCoordsToBounds coords).getWest) / this.georaster.pixelWidth⌉ : ℤ) : ℚ)),
       some (.fin ((⌈((host.tileCoordsToBounds coords).getNorth -
          (host.tileCoordsToBounds coords).getSouth) / this.georaster.pixelHeight⌉ : ℤ) : ℚ))) := by
    simp [rasterPixels, hproj, jsDiv, hw, hh, mathCeil]
  refine ⟨_, _, _, _, rfl, rfl, hpix, ?_, ?_, rfl, rfl, min_le_left _ _, min_le_right _ _,
    min_le_left _ _, min_le_right _ _⟩
  · simp [numberOfSamplesAcross, hpix, mathMin]
  · simp [numberOfSamplesDown, hpix, mathMin]

/-- C1, at the scenario: cells of size one, a tile spanning longitudes `-10..10` and
latitudes `-5..5`, `resolution = 20` give 20 samples across and 10 down. -/
theorem createTile_sample_counts_witness :
    numberOfSamplesAcross scenarioHost scenarioLayer ⟨0, 0, 0⟩ = .fin 20 ∧
      numberOfSamplesDown scenarioHost scenarioLayer ⟨0, 0, 0⟩ = .fin 10 := by
  obtain ⟨a, d, across, down, ha, hd, -, hA, hD, hacross, hdown, -⟩ :=
    createTile_sample_counts scenarioHost scenarioLayer ⟨0, 0, 0⟩ rfl (by decide!) (by decide!)
  have ha20 : a = 20 := ha.trans (by decide!)
  have hd10 : d = 10 := hd.trans (by decide!)
  subst ha20 hd10
  have h1 : across = 20 := hacross.trans (by decide!)
  have h2 : down = 10 := hdown.trans (by decide!)
  subst h1 h2
  exact ⟨hA, hD⟩

/-- On the timer's receiver the index conversion yields `null` and undefined: its
`projection` is not 4326 and it has no `projector`, whatever the coordinate. -/
theorem cellIndices_timerReceiver (s : TileScope) (lat lng : ℚ) :
    cellIndices timerReceiver s lat lng (rowIndex timerReceiver s lat) = (none, none) := by
  simp [cellIndices, rowIndex, timerReceiver]

/-- C3, evaluated: on the layer over the square raster (ten by ten cells of size one at the
origin) and a tile inside it, row 0 tests the coordinate `lat = 5`, `lng = 5`, which passes
the bounds filter.  The deferred callback is not bound to the layer, so on its receiver the
projection is undefined and the indices are `null` and undefined instead of a row and a
column in range; with `rasters` bound to the layer's values the loop then indexes a missing
row, a type error.  Bound to the layer, the callback would compute row 5 and column 5. -/
theorem createTile_indices_unbound_receiver :
    insideHost.unproject
        (latWestPoint (tileScope insideHost (squareLayer 2 true) ⟨0, 0, 0⟩ 2 2) 0) 0 = ⟨5, 5⟩ ∧
    ((5 : ℚ) > (tileScope insideHost (squareLayer 2 true) ⟨0, 0, 0⟩ 2 2).minLat ∧
      (5 : ℚ) < (tileScope insideHost (squareLayer 2 true) ⟨0, 0, 0⟩ 2 2).maxLat) ∧
    ((5 : ℚ) > (tileScope insideHost (squareLayer 2 true) ⟨0, 0, 0⟩ 2 2).minLng ∧
      (5 : ℚ) < (tileScope insideHost (squareLayer 2 true) ⟨0, 0, 0⟩ 2 2).maxLng) ∧
    cellIndices timerReceiver (tileScope insideHost (squareLayer 2 true) ⟨0, 0, 0⟩ 2 2) 5 5
        (rowIndex timerReceiver (tileScope insideHost (squareLayer 2 true) ⟨0, 0, 0⟩ 2 2) 5) =
      (none, none) ∧
    createTile insideHost (squareLayer 2 true) timerReceiver (squareLayer 2 true).rasters
        ⟨0, 0, 0⟩ = ⟨[], some .typeError⟩ ∧
    cellIndices ((squareLayer 2 true).receiver insideHost)
        (tileScope insideHost (squareLayer 2 true) ⟨0, 0, 0⟩ 2 2) 5 5
        (rowIndex ((squareLayer 2 true).receiver insideHost)
          (tileScope insideHost (squareLayer 2 true) ⟨0, 0, 0⟩ 2 2) 5) =
      (some 5, some 5) := by
  refine ⟨by decide!, by decide!, by decide!, by decide!, by decide!, by decide!⟩

/-- C4, evaluated: on the UTM layer whose bounds `initBounds` computes from the forward
images of the two corners, a tile inside the bounds has one sample, whose tested coordinate
`lat = 1/2`, `lng = 1/4` passes the bounds filter.  The deferred callback is not bound to
the layer, so on its receiver there is no `projector`: `projector.inverse` is never called
and the indices are `null` and undefined; the loop then stops on the undeclared `rasters`,
or, with `rasters` bound, on a missing row.  Bound to the layer the callback would compute
row 1 and column 0; and even then the bounds of two corners do not confine the inverse
image: under the shear, whose forward and inverse are mutually inverse, the coordinate
`lat = 1/4`, `lng = 3/2` passes the filter and is converted to column 2 of a raster of 2
columns. -/
theorem createTile_projected_unconverted :
    initBounds (utmEnv scaleProjector) scaleLayer.projector scaleLayer.georaster =
      .ok scaleLayer._bounds ∧
    numberOfSamplesAcross utmInsideHost scaleLayer ⟨0, 0, 0⟩ = .fin 1 ∧
    numberOfSamplesDown utmInsideHost scaleLayer ⟨0, 0, 0⟩ = .fin 1 ∧
    utmInsideHost.unproject
        (latWestPoint (tileScope utmInsideHost scaleLayer ⟨0, 0, 0⟩ 1 1) 0) 0 = ⟨1 / 2, 1 / 4⟩ ∧
    ((1 / 2 : ℚ) > (tileScope utmInsideHost scaleLayer ⟨0, 0, 0⟩ 1 1).minLat ∧
      (1 / 2 : ℚ) < (tileScope utmInsideHost scaleLayer ⟨0, 0, 0⟩ 1 1).maxLat) ∧
    ((1 / 4 : ℚ) > (tileScope utmInsideHost scaleLayer ⟨0, 0, 0⟩ 1 1).minLng ∧
      (1 / 4 : ℚ) < (tileScope utmInsideHost scaleLayer ⟨0, 0, 0⟩ 1 1).maxLng) ∧
    cellIndices timerReceiver (tileScope utmInsideHost scaleLayer ⟨0, 0, 0⟩ 1 1) (1 / 2) (1 / 4)
        (rowIndex timerReceiver (tileScope utmInsideHost scaleLayer ⟨0, 0, 0⟩ 1 1) (1 / 2)) =
      (none, none) ∧
    createTile utmInsideHost scaleLayer timerReceiver none ⟨0, 0, 0⟩ =
      ⟨[], some .referenceError⟩ ∧
    createTile utmInsideHost scaleLayer timerReceiver scaleLayer.rasters ⟨0, 0, 0⟩ =
      ⟨[], some .typeError⟩ ∧
    cellIndices (scaleLayer.receiver utmInsideHost)
        (tileScope utmInsideHost scaleLayer ⟨0, 0, 0⟩ 1 1) (1 / 2) (1 / 4)
        (rowIndex (scaleLayer.receiver utmInsideHost)
          (tileScope utmInsideHost scaleLayer ⟨0, 0, 0⟩ 1 1) (1 / 2)) =
      (some 1, some 0) ∧
    (∀ p, shearProjector.inverse (shearProjector.forward p) = p) ∧
    (∀ p, shearProjector.forward (shearProjector.inverse p) = p) ∧
    initBounds (utmEnv shearProjector) shearLayer.projector shearLayer.georaster =
      .ok shearLayer._bounds ∧
    ((1 / 4 : ℚ) > (tileScope scenarioHost shearLayer ⟨0, 0, 0⟩ 2 2).minLat ∧
      (1 / 4 : ℚ) < (tileScope scenarioHost shearLayer ⟨0, 0, 0⟩ 2 2).maxLat) ∧
    ((3 / 2 : ℚ) > (tileScope scenarioHost shearLayer ⟨0, 0, 0⟩ 2 2).minLng ∧
      (3 / 2 : ℚ) < (tileScope scenarioHost shearLayer ⟨0, 0, 0⟩ 2 2).maxLng) ∧
    cellIndices (shearLayer.receiver scenarioHost)
        (tileScope scenarioHost shearLayer ⟨0, 0, 0⟩ 2 2) (1 / 4) (3 / 2)
        (rowIndex (shearLayer.receiver scenarioHost)
          (tileScope scenarioHost shearLayer ⟨0, 0, 0⟩ 2 2) (1 / 4)) =
      (some 1, some 2) ∧
    ¬ ((2 : ℚ) < (shearLayer.georaster.xmax - shearLayer.georaster.xmin) /
      shearLayer.georaster.pixelWidth) := by
  refine ⟨?_, by decide!, by decide!, by decide!, by decide!, by decide!, by decide!,
    by decide!, by decide!, by decide!, ?_, ?_, ?_, by decide!, by decide!, by decide!,
    by decide!⟩
  · norm_num [initBounds, scaleLayer, projectedLayer, utmRaster, utmEnv, scaleProjector]
  · intro p
    simp [shearProjector]
  · intro p
    simp [shearProjector]
  · norm_num [initBounds, shearLayer, projectedLayer, utmRaster, utmEnv, shearProjector]

/-- A loop whose every body makes no call and throws nothing does the same. -/
theorem forLoop_nil (body : ℕ → TileResult) (xs : List ℕ)
    (h : ∀ i ∈ xs, body i = ⟨[], none⟩) : forLoop body xs = ⟨[], none⟩ := by
  induction xs with
  | nil => rfl
  | cons i rest ih =>
    have hi := h i (List.mem_cons_self i rest)
    have hrest := ih (fun j hj => h j (List.mem_cons_of_mem i hj))
    simp [forLoop, hi, hrest]

/-- A row whose tested coordinate fails the bounds filter makes no call and throws
nothing. -/
theorem loop_skipped (host : Host) (_this2 : Receiver) (rasters : Option Rasters) (s : TileScope)
    (h : ℕ)
    (hskip : ¬ (((host.unproject (latWestPoint s h) s.coords.z).lat > s.minLat ∧
        (host.unproject (latWestPoint s h) s.coords.z).lat < s.maxLat) ∧
      ((host.unproject (latWestPoint s h) s.coords.z).lng > s.minLng ∧
        (host.unproject (latWestPoint s h) s.coords.z).lng < s.maxLng))) :
    _loop host _this2 rasters s h = ⟨[], none⟩ := by
  unfold _loop
  by_cases hlat : (host.unproject (latWestPoint s h) s.coords.z).lat > s.minLat ∧
      (host.unproject (latWestPoint s h) s.coords.z).lat < s.maxLat
  · have hlng : ¬ ((host.unproject (latWestPoint s h) s.coords.z).lng > s.minLng ∧
        (host.unproject (latWestPoint s h) s.coords.z).lng < s.maxLng) :=
      fun hl => hskip ⟨hlat, hl⟩
    simp only [hlat, and_self, if_true]
    apply forLoop_nil
    intro w _
    simp only [_loop2, hlng, if_false]
  · simp only [hlat, if_false]

/-- The deferred callback makes no call and throws nothing when every row's tested
coordinate fails the bounds filter. -/
theorem deferred_skipped (host : Host) (_this2 : Receiver) (rasters : Option Rasters)
    (s : TileScope)
    (hskip : ∀ h ∈ indicesBelow s.numberOfSamplesDown,
      ¬ (((host.unproject (latWestPoint s h) s.coords.z).lat > s.minLat ∧
          (host.unproject (latWestPoint s h) s.coords.z).lat < s.maxLat) ∧
        ((host.unproject (latWestPoint s h) s.coords.z).lng > s.minLng ∧
          (host.unproject (latWestPoint s h) s.coords.z).lng < s.maxLng))) :
    deferred host _this2 rasters s = ⟨[], none⟩ :=
  forLoop_nil _ _ (fun h hh => loop_skipped host _this2 rasters s h (hskip h hh))

/-- With an integer cap, a finite `Math.min(resolution, Math.ceil(...))` is an integer. -/
theorem mathMin_ceil_integer (resolution : ℚ) (x : Num) (n : ℚ)
    (hres : ∃ k : ℤ, resolution = k) (h : mathMin resolution (some (mathCeil x)) = .fin n) :
    ∃ m : ℤ, n = m := by
  obtain ⟨k, hk⟩ := hres
  cases x with
  | fin q =>
    simp only [mathCeil, mathMin, Num.fin.injEq] at h
    rcases min_choice resolution (⌈q⌉ : ℚ) with hm | hm
    · exact ⟨k, by rw [← h, hm, hk]⟩
    · exact ⟨⌈q⌉, by rw [← h, hm]⟩
  | posInf =>
    simp only [mathCeil, mathMin, Num.fin.injEq] at h
    exact ⟨k, by rw [← h, hk]⟩
  | negInf => simp [mathCeil, mathMin] at h
  | nan => simp [mathCeil, mathMin] at h

/-- With an integer `resolution`, a finite `numberOfSamplesDown` is an integer. -/
theorem numberOfSamplesDown_integer (host : Host) (this : Layer) (coords : Coords) (down : ℚ)
    (hres : ∃ k : ℤ, this.options.resolution = k)
    (h : numberOfSamplesDown host this coords = .fin down) : ∃ m : ℤ, down = m := by
  unfold numberOfSamplesDown rasterPixels at h
  by_cases hp : this.projection = 4326
  · simp only [hp, if_true] at h
    exact mathMin_ceil_integer _ _ _ hres h
  · simp only [hp, if_false] at h
    cases hproj : this.projector with
    | none => simp [hproj, mathMin] at h
    | some projector =>
      simp only [hproj] at h
      exact mathMin_ceil_integer _ _ _ hres h

/-- The centre height of row `h` lies on a tile cut into an integer number of rows. -/
theorem row_centre_on_tile (tileHeight : ℚ) (m : ℤ) (h : ℕ) (hH : 0 ≤ tileHeight)
    (hh : (h : ℤ) < m) :
    0 ≤ ((h : ℚ) + 1 / 2) * (tileHeight / (m : ℚ)) ∧
      ((h : ℚ) + 1 / 2) * (tileHeight / (m : ℚ)) ≤ tileHeight := by
  have hm : (0 : ℚ) < m := by
    have : (0 : ℤ) < m := lt_of_le_of_lt (Int.natCast_nonneg h) hh
    exact_mod_cast this
  have hle : (h : ℚ) + 1 / 2 ≤ m := by
    have h1 : (h : ℤ) + 1 ≤ m := hh
    have h2 : ((h : ℤ) : ℚ) + 1 ≤ m := by exact_mod_cast h1
    have h3 : ((h : ℤ) : ℚ) = (h : ℚ) := by norm_cast
    linarith
  have hpos : (0 : ℚ) ≤ (h : ℚ) + 1 / 2 := by positivity
  constructor
  · exact mul_nonneg hpos (div_nonneg hH hm.le)
  · rw [mul_div_assoc', div_le_iff₀ hm]
    nlinarith

/-- C5: for a tile whose geographic footprint shares no point with the raster's bounds,
where every coordinate unprojected from a point of the tile's canvas lies in the footprint,
`createTile` skips every sample: no `fillRect` call, no `customDrawFunction` call, and no
error.  The cap `resolution` is an integer and the tile's sides are not negative. -/
theorem createTile_disjoint_untouched (host : Host) (this : Layer) (_this2 : Receiver)
    (rasters : Option Rasters) (coords : Coords)
    (hres : ∃ k : ℤ, this.options.resolution = k)
    (hw : 0 ≤ this._tileWidth) (hh : 0 ≤ this._tileHeight)
    (hfoot : ∀ p : Point, onTile this (coords.scaleBy host.getTileSize) p →
      (host.tileCoordsToBounds coords).contains (host.unproject p coords.z))
    (hdisj : ∀ c : LatLng, (host.tileCoordsToBounds coords).contains c →
      ¬ this._bounds.contains c) :
    createTile host this _this2 rasters coords = ⟨[], none⟩ := by
  unfold createTile
  split
  · rename_i across down hacross hdown
    obtain ⟨m, hm⟩ := numberOfSamplesDown_integer host this coords down hres hdown
    apply deferred_skipped
    intro h hmem hpass
    have hlt : (h : ℤ) < m := by
      simp only [indicesBelow, tileScope, hm, Int.ceil_intCast, List.mem_range] at hmem
      omega
    obtain ⟨hy0, hy1⟩ := row_centre_on_tile this._tileHeight m h hh hlt
    have hon : onTile this (coords.scaleBy host.getTileSize)
        (latWestPoint (tileScope host this coords across down) h) := by
      simp only [onTile, latWestPoint, tileScope, hm]
      refine ⟨le_refl _, ?_, ?_, ?_⟩ <;> linarith
    have hin := hfoot _ hon
    apply hdisj _ hin
    have hz : (tileScope host this coords across down).coords.z = coords.z := rfl
    rw [hz] at hpass
    simp only [tileScope] at hpass
    exact ⟨hpass.1.1.le, hpass.1.2.le, hpass.2.1.le, hpass.2.2.le⟩
  · rfl

/-- C5, at the scenario raster (longitudes `-10..10`) and a tile covering longitudes
`20..40`. -/
theorem createTile_disjoint_untouched_witness :
    createTile eastHost scenarioLayer (scenarioLayer.receiver eastHost) scenarioLayer.rasters
      ⟨0, 0, 0⟩ = ⟨[], none⟩ :=
  createTile_disjoint_untouched eastHost scenarioLayer (scenarioLayer.receiver eastHost)
    scenarioLayer.rasters ⟨0, 0, 0⟩ ⟨20, by norm_num [scenarioLayer]⟩ (by decide!) (by decide!)
    (by
      intro p hp
      simp only [onTile, scenarioLayer, eastHost, affineHost, Coords.scaleBy] at hp
      simp only [LatLngBounds.contains, eastHost, affineHost, latLngBounds,
        LatLngBounds.getSouth, LatLngBounds.getNorth, LatLngBounds.getWest,
        LatLngBounds.getEast]
      norm_num at hp ⊢
      refine ⟨?_, ?_, ?_, ?_⟩ <;> linarith [hp.1, hp.2.1, hp.2.2.1, hp.2.2.2])
    (by
      intro c hc hb
      simp only [LatLngBounds.contains, eastHost, affineHost, scenarioLayer, latLngBounds,
        LatLngBounds.getSouth, LatLngBounds.getNorth, LatLngBounds.getWest,
        LatLngBounds.getEast] at hc hb
      norm_num at hc hb
      linarith [hc.2.2.1, hb.2.2.2])

/-- C7, evaluated: in the scenario the screen-pixel centre of the top-left sample
unprojects to `lat = 9/2`, `lng = -19/2`, inside the raster, where the index conversion
(with the layer as receiver) gives row 0 and column 0; but the loop tests the coordinate of the tile's west edge,
`lng = -10`, which is not greater than `minLng = -10`, so that sample, like every other, is
skipped and no cell is read, whatever the receiver and the binding of `rasters`. -/
theorem createTile_scenario_top_left_skipped :
    scenarioHost.unproject
        (latLngPoint (tileScope scenarioHost scenarioLayer ⟨0, 0, 0⟩ 20 10) 0 0) 0 =
      ⟨9 / 2, -19 / 2⟩ ∧
    cellIndices (scenarioLayer.receiver scenarioHost)
        (tileScope scenarioHost scenarioLayer ⟨0, 0, 0⟩ 20 10) (9 / 2) (-19 / 2)
        (rowIndex (scenarioLayer.receiver scenarioHost)
          (tileScope scenarioHost scenarioLayer ⟨0, 0, 0⟩ 20 10) (9 / 2)) =
      (some 0, some 0) ∧
    scenarioHost.unproject
        (latWestPoint (tileScope scenarioHost scenarioLayer ⟨0, 0, 0⟩ 20 10) 0) 0 =
      ⟨9 / 2, -10⟩ ∧
    ∀ (_this2 : Receiver) (rasters : Option Rasters),
      createTile scenarioHost scenarioLayer _this2 rasters ⟨0, 0, 0⟩ = ⟨[], none⟩ := by
  refine ⟨by decide!, by decide!, by decide!, ?_⟩
  intro _this2 rasters
  have hA : numberOfSamplesAcross scenarioHost scenarioLayer ⟨0, 0, 0⟩ = .fin 20 := by decide!
  have hD : numberOfSamplesDown scenarioHost scenarioLayer ⟨0, 0, 0⟩ = .fin 10 := by decide!
  simp only [createTile, hA, hD]
  apply deferred_skipped
  intro h _ hpass
  have hlng := hpass.2.1
  simp only [tileScope, latWestPoint, scenarioHost, affineHost, scenarioLayer, latLngBounds,
    LatLngBounds.getWest, Coords.scaleBy] at hlng
  norm_num at hlng

/-- C2, evaluated: for the square raster (longitudes `0..10`) and a tile covering
longitudes `-5..15` cut into four samples across, the screen-pixel centre of sample
`(h, w) = (0, 1)` unprojects to `lat = 35/4`, `lng = 5/2`, inside the raster; the
coordinate the loop tests for that sample is the unprojection of `latWestPoint`, the tile's
west edge, `lat = 35/4`, `lng = -5`, so the sample fails the filter, and so does every
sample of the tile, whatever the receiver and the binding of `rasters`. -/
theorem createTile_tests_west_edge :
    numberOfSamplesAcross wideHost (squareLayer 4 true) ⟨0, 0, 0⟩ = .fin 4 ∧
    numberOfSamplesDown wideHost (squareLayer 4 true) ⟨0, 0, 0⟩ = .fin 4 ∧
    wideHost.unproject
        (latLngPoint (tileScope wideHost (squareLayer 4 true) ⟨0, 0, 0⟩ 4 4) 0 1) 0 =
      ⟨35 / 4, 5 / 2⟩ ∧
    (squareLayer 4 true)._bounds.getWest < 5 / 2 ∧
    5 / 2 < (squareLayer 4 true)._bounds.getEast ∧
    wideHost.unproject
        (latWestPoint (tileScope wideHost (squareLayer 4 true) ⟨0, 0, 0⟩ 4 4) 0) 0 =
      ⟨35 / 4, -5⟩ ∧
    _loop2 ((squareLayer 4 true).receiver wideHost) (squareLayer 4 true).rasters
        (tileScope wideHost (squareLayer 4 true) ⟨0, 0, 0⟩ 4 4)
        (wideHost.unproject
          (latWestPoint (tileScope wideHost (squareLayer 4 true) ⟨0, 0, 0⟩ 4 4) 0) 0)
        (35 / 4) 0 (some 1) 1 = ⟨[], none⟩ ∧
    createTile wideHost (squareLayer 4 true) ((squareLayer 4 true).receiver wideHost)
        (squareLayer 4 true).rasters ⟨0, 0, 0⟩ = ⟨[], none⟩ ∧
    ∀ (_this2 : Receiver) (rasters : Option Rasters),
      createTile wideHost (squareLayer 4 true) _this2 rasters ⟨0, 0, 0⟩ = ⟨[], none⟩ := by
  refine ⟨by decide!, by decide!, by decide!, by decide!, by decide!, by decide!, by decide!,
    by decide!, ?_⟩
  intro _this2 rasters
  have hA : numberOfSamplesAcross wideHost (squareLayer 4 true) ⟨0, 0, 0⟩ = .fin 4 := by
    decide!
  have hD : numberOfSamplesDown wideHost (squareLayer 4 true) ⟨0, 0, 0⟩ = .fin 4 := by
    decide!
  simp only [createTile, hA, hD]
  apply deferred_skipped
  intro h _ hpass
  have hlng := hpass.2.1
  simp only [tileScope, latWestPoint, wideHost, affineHost, squareLayer, latLngBounds,
    LatLngBounds.getWest, Coords.scaleBy] at hlng
  norm_num at hlng

/-- C8, evaluated: the layer that `initialize` builds over the in-memory square raster
keeps the values in `this.rasters`; on a tile inside the raster the first sample passes the
bounds filter, and the loop then reads the identifier `rasters`, which nothing declares:
with no global of that name `createTile` throws a reference error before any value list
reaches `getColor` or `customDrawFunction`, on the receiver the timer supplies as on the
layer.  Were the identifier bound to the layer's values and the callback to the layer, each
of the four samples would hand the one-entry list `[5]` to the hook. -/
theorem createTile_rasters_unbound :
    (initLayer geographicEnv insideHost ⟨flatRaster 0 0 10 10 5, some 2, none, true⟩).logged =
      none ∧
    (initLayer geographicEnv insideHost ⟨flatRaster 0 0 10 10 5, some 2, none, true⟩).layer =
      some (squareLayer 2 true) ∧
    (squareLayer 2 true).rasters = (flatRaster 0 0 10 10 5).values ∧
    createTile insideHost (squareLayer 2 true) ((squareLayer 2 true).receiver insideHost) none
        ⟨0, 0, 0⟩ = ⟨[], some .referenceError⟩ ∧
    createTile insideHost (squareLayer 2 true) ((squareLayer 2 true).receiver insideHost)
        (squareLayer 2 true).rasters ⟨0, 0, 0⟩ =
      ⟨[.customDraw [some 5] 0 0 128 128, .customDraw [some 5] 128 0 128 128,
        .customDraw [some 5] 0 128 128 128, .customDraw [some 5] 128 128 128 128], none⟩ ∧
    createTile insideHost (squareLayer 2 true) timerReceiver none ⟨0, 0, 0⟩ =
      ⟨[], some .referenceError⟩ := by
  refine ⟨?_, ?_, rfl, by decide!, by decide!, by decide!⟩
  · have hsrc : ¬ ("memory" = "url") := by decide
    simp [initLayer, initProjector, initBounds, geographicEnv, flatRaster, hsrc]
  · have hsrc : ¬ ("memory" = "url") := by decide
    norm_num [initLayer, initProjector, initBounds, geographicEnv, flatRaster, squareLayer,
      insideHost, affineHost, hsrc]

/-- The pixel sizes `rasterCoordsForTileCoords` divides by are the layer's `_pixelHeight`
and `_pixelWidth`, which `initialize` does not assign: on a geographic layer fresh from the
constructor both indices are `NaN`, at every sample. -/
theorem rasterCoordsForTileCoords_unset_pixel_size (host : Host) (this : Layer)
    (options : GetRastersOptions) (h w : ℚ) (hproj : this.projection = 4326)
    (hph : this._pixelHeight = none) (hpw : this._pixelWidth = none) :
    rasterCoordsForTileCoords host this options h w = some ⟨none, none⟩ := by
  simp [rasterCoordsForTileCoords, hproj, hph, hpw, floorDiv]

/-- C6, evaluated: on the layer `initialize` builds over the square raster, whose origin is
`lng = xmin = 0`, `lat = ymax = 10`, the properties `_pixelHeight` and `_pixelWidth` are
unassigned; for a sample whose centre unprojects exactly to the origin
`rasterCoordsForTileCoords` divides by them and returns `NaN` for both indices, not row 0
and column 0.  In `createTile` a row whose tested coordinate is exactly the origin fails the
strict bounds filter, so the loop skips it and computes no indices, whatever the receiver
and the binding of `rasters`. -/
theorem rasterCoordsForTileCoords_origin_nan :
    (initLayer geographicEnv centreHost ⟨flatRaster 0 0 10 10 5, some 1, none, true⟩).layer =
      some (squareLayer 1 true) ∧
    (squareLayer 1 true)._pixelHeight = none ∧ (squareLayer 1 true)._pixelWidth = none ∧
    centreHost.unproject
        ⟨centreOptions.tileNwPoint.x +
            (0 + 1 / 2) * centreOptions.widthOfSampleInScreenPixels,
          centreOptions.tileNwPoint.y +
            (0 + 1 / 2) * centreOptions.heightOfSampleInScreenPixels⟩
        centreOptions.coords.z =
      ⟨(squareLayer 1 true).georaster.ymax, (squareLayer 1 true).georaster.xmin⟩ ∧
    centreOptions.ymax = (squareLayer 1 true).georaster.ymax ∧
    centreOptions.xmin = (squareLayer 1 true).georaster.xmin ∧
    rasterCoordsForTileCoords centreHost (squareLayer 1 true) centreOptions 0 0 =
      some ⟨none, none⟩ ∧
    originHost.unproject
        (latWestPoint (tileScope originHost (squareLayer 1 true) ⟨0, 0, 0⟩ 1 1) 0) 0 =
      ⟨(squareLayer 1 true).georaster.ymax, (squareLayer 1 true).georaster.xmin⟩ ∧
    ∀ (_this2 : Receiver) (rasters : Option Rasters),
      createTile originHost (squareLayer 1 true) _this2 rasters ⟨0, 0, 0⟩ = ⟨[], none⟩ := by
  refine ⟨?_, rfl, rfl, by decide!, by decide!, by decide!, by decide!, by decide!, ?_⟩
  · have hsrc : ¬ ("memory" = "url") := by decide
    norm_num [initLayer, initProjector, initBounds, geographicEnv, flatRaster, squareLayer,
      centreHost, affineHost, hsrc]
  · intro _this2 rasters
    have hA : numberOfSamplesAcross originHost (squareLayer 1 true) ⟨0, 0, 0⟩ = .fin 1 := by
      decide!
    have hD : numberOfSamplesDown originHost (squareLayer 1 true) ⟨0, 0, 0⟩ = .fin 1 := by
      decide!
    simp only [createTile, hA, hD]
    apply deferred_skipped
    intro h _ hpass
    have hlng := hpass.2.1
    simp only [tileScope, latWestPoint, originHost, affineHost, squareLayer, latLngBounds,
      LatLngBounds.getWest, Coords.scaleBy] at hlng
    norm_num at hlng

/-- C11: with no `pixelValuesToColorFn`, for a single value `v`, present and different from
`noDataValue`, `getColor` returns the colour scale's hex colour at the position
`(v - mins[0]) / ranges[0]`; for a non-zero range that position is the finite number
`(v - mins[0]) / ranges[0]`. -/
theorem getColor_single_band_scale (host : Host) (this : Layer) (v m r : ℚ)
    (hfn : this.options.pixelValuesToColorFn = none)
    (hv : some v ≠ this.georaster.noDataValue)
    (hm : this.georaster.mins[0]? = some m) (hr : this.georaster.ranges[0]? = some r) :
    getColor host this [some v] = some (host.scaleHex (jsDiv (v - m) r)) ∧
      (r ≠ 0 → getColor host this [some v] = some (host.scaleHex (.fin ((v - m) / r)))) := by
  have h : getColor host this [some v] = some (host.scaleHex (jsDiv (v - m) r)) := by
    simp [getColor, hfn, hv, hm, hr, scalePosition]
  refine ⟨h, fun hr0 => ?_⟩
  rw [h]
  simp [jsDiv, hr0]

/-- C11, at `mins = [0]`, `ranges = [100]`, `values = [50]`: the lookup is at `1/2`, the
midpoint of the scale. -/
theorem getColor_single_band_scale_witness :
    getColor scenarioHost percentLayer [some 50] =
      some (scenarioHost.scaleHex (.fin (1 / 2))) :=
  ((getColor_single_band_scale scenarioHost percentLayer 50 0 100 rfl (by decide!) rfl rfl).2
    (by norm_num)).trans (by norm_num)

/-- C12: with no `pixelValuesToColorFn`, `getColor` returns no colour for every value list
whose length is outside `1..4`: the empty list and lists of five or more values.  The
function is total: no input makes it fail. -/
theorem getColor_band_count_outside (host : Host) (this : Layer) (values : List Value)
    (hfn : this.options.pixelValuesToColorFn = none)
    (hlen : values.length = 0 ∨ 5 ≤ values.length) :
    getColor host this values = none := by
  unfold getColor
  rw [hfn]
  simp only
  split
  · have h1 : values.length ≠ 1 := by omega
    have h2 : values.length ≠ 2 := by omega
    have h3 : values.length ≠ 3 := by omega
    have h4 : values.length ≠ 4 := by omega
    simp only [h1, h2, h3, h4, if_false]
  · rfl

/-- C12, at the empty list and at five values. -/
theorem getColor_band_count_outside_witness :
    getColor scenarioHost scenarioLayer [] = none ∧
      getColor scenarioHost scenarioLayer [some 1, some 2, some 3, some 4, some 5] = none :=
  ⟨getColor_band_count_outside scenarioHost scenarioLayer [] rfl (Or.inl rfl),
   getColor_band_count_outside scenarioHost scenarioLayer
     [some 1, some 2, some 3, some 4, some 5] rfl (Or.inr (by decide))⟩

/-- C13: when `pixelValuesToColorFn` is configured, `getColor(values)` is
`pixelValuesToColorFn(values)` for every value list, whatever its length and whether or not
it holds `noDataValue` or undefined entries. -/
theorem getColor_custom_function (host : Host) (this : Layer)
    (pixelValuesToColorFn : List Value → Option String) (values : List Value)
    (hfn : this.options.pixelValuesToColorFn = some pixelValuesToColorFn) :
    getColor host this values = pixelValuesToColorFn values := by
  unfold getColor
  rw [hfn]

/-- C13, at a function that answers red and a list of six entries, one the no-data value
and one undefined. -/
theorem getColor_custom_function_witness :
    getColor scenarioHost redLayer [some (-9999), none, some 1, some 2, some 3, some 4] =
      some "#ff0000" :=
  getColor_custom_function scenarioHost redLayer (fun _ => some "#ff0000")
    [some (-9999), none, some 1, some 2, some 3, some 4] rfl

/-- C20: for a geographic layer with positive pixel sizes, a tile with positive longitude
and latitude span and `resolution ≥ 1`, both sample counts of `createTile` are finite and
at least one, so the divisions `_tileWidth / numberOfSamplesAcross` and
`_tileHeight / numberOfSamplesDown` have a non-zero divisor. -/
theorem createTile_sample_counts_positive (host : Host) (this : Layer) (coords : Coords)
    (hproj : this.projection = 4326)
    (hpw : 0 < this.georaster.pixelWidth) (hph : 0 < this.georaster.pixelHeight)
    (hlng : (host.tileCoordsToBounds coords).getWest < (host.tileCoordsToBounds coords).getEast)
    (hlat : (host.tileCoordsToBounds coords).getSouth <
      (host.tileCoordsToBounds coords).getNorth)
    (hres : 1 ≤ this.options.resolution) :
    ∃ across down : ℚ,
      numberOfSamplesAcross host this coords = .fin across ∧
      numberOfSamplesDown host this coords = .fin down ∧
      1 ≤ across ∧ 1 ≤ down ∧ across ≠ 0 ∧ down ≠ 0 := by
  have hA : (1 : ℚ) ≤ ((⌈((host.tileCoordsToBounds coords).getEast -
      (host.tileCoordsToBounds coords).getWest) / this.georaster.pixelWidth⌉ : ℤ) : ℚ) := by
    have h : (1 : ℤ) ≤ ⌈((host.tileCoordsToBounds coords).getEast -
        (host.tileCoordsToBounds coords).getWest) / this.georaster.pixelWidth⌉ :=
      Int.one_le_ceil_iff.mpr (div_pos (sub_pos.mpr hlng) hpw)
    exact_mod_cast h
  have hD : (1 : ℚ) ≤ ((⌈((host.tileCoordsToBounds coords).getNorth -
      (host.tileCoordsToBounds coords).getSouth) / this.georaster.pixelHeight⌉ : ℤ) : ℚ) := by
    have h : (1 : ℤ) ≤ ⌈((host.tileCoordsToBounds coords).getNorth -
        (host.tileCoordsToBounds coords).getSouth) / this.georaster.pixelHeight⌉ :=
      Int.one_le_ceil_iff.mpr (div_pos (sub_pos.mpr hlat) hph)
    exact_mod_cast h
  have ha := le_min hres hA
  have hd := le_min hres hD
  refine ⟨_, _, ?_, ?_, ha, hd, ?_, ?_⟩
  · simp [numberOfSamplesAcross, rasterPixels, hproj, jsDiv, hpw.ne', mathCeil, mathMin]
  · simp [numberOfSamplesDown, rasterPixels, hproj, jsDiv, hph.ne', mathCeil, mathMin]
  · exact (lt_of_lt_of_le one_pos ha).ne'
  · exact (lt_of_lt_of_le one_pos hd).ne'

/-- C20, at the scenario: 20 samples across and 10 down. -/
theorem createTile_sample_counts_positive_witness :
    ∃ across down : ℚ,
      numberOfSamplesAcross scenarioHost scenarioLayer ⟨0, 0, 0⟩ = .fin across ∧
      numberOfSamplesDown scenarioHost scenarioLayer ⟨0, 0, 0⟩ = .fin down ∧
      1 ≤ across ∧ 1 ≤ down ∧ across ≠ 0 ∧ down ≠ 0 :=
  createTile_sample_counts_positive scenarioHost scenarioLayer ⟨0, 0, 0⟩ rfl (by decide!)
    (by decide!) (by decide!) (by decide!) (by decide!)

/-- Rounding a sum goes up by at most the ceiling of the step. -/
theorem jsRound_add_le (a s : ℚ) : jsRound (a + s) ≤ jsRound a + ⌈s⌉ := by
  unfold jsRound
  have h : a + s + 1 / 2 ≤ a + 1 / 2 + (⌈s⌉ : ℚ) := by linarith [Int.le_ceil s]
  calc ⌊a + s + 1 / 2⌋ ≤ ⌊a + 1 / 2 + (⌈s⌉ : ℚ)⌋ := Int.floor_mono h
    _ = ⌊a + 1 / 2⌋ + ⌈s⌉ := Int.floor_add_int _ _

/-- Rounding a sum goes up by at least the ceiling of the step less one. -/
theorem le_jsRound_add (a s : ℚ) : jsRound a + ⌈s⌉ - 1 ≤ jsRound (a + s) := by
  unfold jsRound
  have h1 : ⌊a + 1 / 2⌋ + ⌊s⌋ ≤ ⌊a + 1 / 2 + s⌋ := Int.le_floor_add _ _
  have h2 : ⌈s⌉ ≤ ⌊s⌋ + 1 := Int.ceil_le_floor_add_one s
  have h3 : a + 1 / 2 + s = a + s + 1 / 2 := by ring
  rw [h3] at h1
  omega

/-- `Math.round` is monotone. -/
theorem jsRound_mono {a b : ℚ} (h : a ≤ b) : jsRound a ≤ jsRound b := by
  unfold jsRound
  exact Int.floor_mono (by linarith)

/-- `Math.round` leaves an integer as it is. -/
theorem jsRound_intCast (k : ℤ) : jsRound (k : ℚ) = k := by
  unfold jsRound
  rw [Int.floor_eq_iff]
  constructor <;> norm_num

/-- The start of sample `w + 1` is the start of sample `w` moved by one sample size. -/
theorem next_sample_start (w : ℕ) (s : ℚ) : (((w + 1 : ℕ) : ℚ)) * s = (w : ℚ) * s + s := by
  push_cast
  ring

/-- C17: adjacent sample rectangles leave no gap.  For every tile size and positive sample
counts (so for every integer tile width `T > 0` and `n ≥ 1` samples, with sample size
`T / n`), the rectangle painted for sample `w` reaches at least the start of the rectangle
for sample `w + 1`: `round((w + 1) * s) ≤ round(w * s) + ceil(s)`, and likewise down the
tile with the tile height and `numberOfSamplesDown`. -/
theorem adjacent_rectangles_no_gap (host : Host) (this : Layer) (coords : Coords)
    (across down : ℚ) (h w : ℕ) (_hacross : 0 < across) (_hdown : 0 < down) :
    jsRound (((w + 1 : ℕ) : ℚ) * (this._tileWidth / across)) ≤
        jsRound ((w : ℚ) * (this._tileWidth / across)) + ⌈this._tileWidth / across⌉ ∧
      jsRound (((h + 1 : ℕ) : ℚ) * (this._tileHeight / down)) ≤
        jsRound ((h : ℚ) * (this._tileHeight / down)) + ⌈this._tileHeight / down⌉ ∧
      (destinationRect (tileScope host this coords across down) h (w + 1)).x ≤
        (destinationRect (tileScope host this coords across down) h w).x +
          (destinationRect (tileScope host this coords across down) h w).width ∧
      (destinationRect (tileScope host this coords across down) (h + 1) w).y ≤
        (destinationRect (tileScope host this coords across down) h w).y +
          (destinationRect (tileScope host this coords across down) h w).height := by
  have hx := jsRound_add_le ((w : ℚ) * (this._tileWidth / across)) (this._tileWidth / across)
  have hy := jsRound_add_le ((h : ℚ) * (this._tileHeight / down)) (this._tileHeight / down)
  rw [← next_sample_start] at hx hy
  exact ⟨hx, hy, hx, hy⟩

/-- C17, at the scenario tile of 256 pixels cut into 20 by 10 samples, for `w = 2` and
`h = 3`: `38 ≤ 26 + 13` and `102 ≤ 77 + 26`. -/
theorem adjacent_rectangles_no_gap_witness :
    jsRound (((2 + 1 : ℕ) : ℚ) * (scenarioLayer._tileWidth / 20)) ≤
        jsRound (((2 : ℕ) : ℚ) * (scenarioLayer._tileWidth / 20)) +
          ⌈scenarioLayer._tileWidth / 20⌉ ∧
      jsRound (((3 + 1 : ℕ) : ℚ) * (scenarioLayer._tileHeight / 10)) ≤
        jsRound (((3 : ℕ) : ℚ) * (scenarioLayer._tileHeight / 10)) +
          ⌈scenarioLayer._tileHeight / 10⌉ ∧
      (destinationRect (tileScope scenarioHost scenarioLayer ⟨0, 0, 0⟩ 20 10) 3 (2 + 1)).x ≤
        (destinationRect (tileScope scenarioHost scenarioLayer ⟨0, 0, 0⟩ 20 10) 3 2).x +
          (destinationRect (tileScope scenarioHost scenarioLayer ⟨0, 0, 0⟩ 20 10) 3 2).width ∧
      (destinationRect (tileScope scenarioHost scenarioLayer ⟨0, 0, 0⟩ 20 10) (3 + 1) 2).y ≤
        (destinationRect (tileScope scenarioHost scenarioLayer ⟨0, 0, 0⟩ 20 10) 3 2).y +
          (destinationRect (tileScope scenarioHost scenarioLayer ⟨0, 0, 0⟩ 20 10) 3 2).height :=
  adjacent_rectangles_no_gap scenarioHost scenarioLayer ⟨0, 0, 0⟩ 20 10 3 2 (by norm_num)
    (by norm_num)

/-- Steps that leave no gap cover every position between the first start and the end of
the last piece. -/
theorem cover_of_steps (f : ℕ → ℤ) (c p : ℤ) (hstep : ∀ w, f (w + 1) ≤ f w + c) (m : ℕ)
    (h0 : f 0 ≤ p) (hend : p < f m + c) : ∃ w, w ≤ m ∧ f w ≤ p ∧ p < f w + c := by
  induction m with
  | zero => exact ⟨0, le_refl _, h0, hend⟩
  | succ k ih =>
    by_cases hk : f (k + 1) ≤ p
    · exact ⟨k + 1, le_refl _, hk, hend⟩
    · have hlt : p < f k + c := lt_of_lt_of_le (not_le.mp hk) (hstep k)
      obtain ⟨w, hw, hfw, hpw⟩ := ih hlt
      exact ⟨w, Nat.le_succ_of_le hw, hfw, hpw⟩

/-- One axis of a tile of `T` pixels cut into `n` samples of size `T / n`: the first
rectangle starts at 0, the starts do not decrease, the last rectangle reaches `T`, and
every position `0 ≤ p < T` lies in the rectangle of some sample. -/
theorem axis_spanned (T : ℤ) (n : ℕ) (hT : 0 < T) (hn : 1 ≤ n) :
    jsRound (((0 : ℕ) : ℚ) * ((T : ℚ) / n)) = 0 ∧
    (∀ w w' : ℕ, w ≤ w' → jsRound ((w : ℚ) * ((T : ℚ) / n)) ≤ jsRound ((w' : ℚ) * ((T : ℚ) / n))) ∧
    T ≤ jsRound (((n - 1 : ℕ) : ℚ) * ((T : ℚ) / n)) + ⌈(T : ℚ) / n⌉ ∧
    ∀ p : ℤ, 0 ≤ p → p < T → ∃ w : ℕ, w < n ∧
      jsRound ((w : ℚ) * ((T : ℚ) / n)) ≤ p ∧
      p < jsRound ((w : ℚ) * ((T : ℚ) / n)) + ⌈(T : ℚ) / n⌉ := by
  have hnq : (0 : ℚ) < n := by exact_mod_cast hn
  have hTq : (0 : ℚ) < T := by exact_mod_cast hT
  have hs : (0 : ℚ) < (T : ℚ) / n := div_pos hTq hnq
  have h0 : jsRound (((0 : ℕ) : ℚ) * ((T : ℚ) / n)) = 0 := by
    have : (((0 : ℕ) : ℚ)) * ((T : ℚ) / n) = ((0 : ℤ) : ℚ) := by simp
    rw [this, jsRound_intCast]
  have hmono : ∀ w w' : ℕ, w ≤ w' →
      jsRound ((w : ℚ) * ((T : ℚ) / n)) ≤ jsRound ((w' : ℚ) * ((T : ℚ) / n)) := by
    intro w w' hww
    apply jsRound_mono
    have : (w : ℚ) ≤ w' := by exact_mod_cast hww
    exact mul_le_mul_of_nonneg_right this hs.le
  have hlast : T ≤ jsRound (((n - 1 : ℕ) : ℚ) * ((T : ℚ) / n)) + ⌈(T : ℚ) / n⌉ := by
    have hcast : (((n - 1 : ℕ) : ℚ)) * ((T : ℚ) / n) = (T : ℚ) + (-((T : ℚ) / n)) := by
      rw [Nat.cast_sub hn]
      field_simp
      ring
    have hround : jsRound ((T : ℚ) + (-((T : ℚ) / n))) = T + ⌊-((T : ℚ) / n) + 1 / 2⌋ := by
      unfold jsRound
      rw [add_assoc, Int.floor_int_add]
    have hfloor : -⌈(T : ℚ) / n⌉ ≤ ⌊-((T : ℚ) / n) + 1 / 2⌋ := by
      rw [← Int.floor_neg]
      exact Int.floor_mono (by linarith)
    rw [hcast, hround]
    omega
  refine ⟨h0, hmono, hlast, ?_⟩
  intro p hp0 hpT
  have hstep : ∀ w : ℕ, jsRound (((w + 1 : ℕ) : ℚ) * ((T : ℚ) / n)) ≤
      jsRound ((w : ℚ) * ((T : ℚ) / n)) + ⌈(T : ℚ) / n⌉ := by
    intro w
    rw [next_sample_start]
    exact jsRound_add_le _ _
  obtain ⟨w, hw, hfw, hpw⟩ := cover_of_steps
    (fun w => jsRound ((w : ℚ) * ((T : ℚ) / n))) ⌈(T : ℚ) / n⌉ p hstep (n - 1)
    (by show jsRound (((0 : ℕ) : ℚ) * ((T : ℚ) / n)) ≤ p; rw [h0]; exact hp0)
    (lt_of_lt_of_le hpT hlast)
  exact ⟨w, by omega, hfw, hpw⟩

/-- C19: the sample rectangles span the whole tile.  For integer tile sides `T > 0` cut
into `n ≥ 1` samples of size `s = T / n`, along each axis the first rectangle starts at
`round(0 * s) = 0`, the starts `round(w * s)` do not decrease with `w`, and the last
rectangle reaches the far edge, `round((n - 1) * s) + ceil(s) ≥ T`; so every pixel of the
tile lies in the rectangle of some sample. -/
theorem rectangles_span_tile (host : Host) (this : Layer) (coords : Coords)
    (tileWidth tileHeight : ℤ) (across down : ℕ)
    (hwidth : this._tileWidth = tileWidth) (hheight : this._tileHeight = tileHeight)
    (hw0 : 0 < tileWidth) (hh0 : 0 < tileHeight) (hacross : 1 ≤ across) (hdown : 1 ≤ down) :
    (destinationRect (tileScope host this coords across down) 0 0).x = 0 ∧
    (destinationRect (tileScope host this coords across down) 0 0).y = 0 ∧
    (∀ h w w' : ℕ, w ≤ w' →
      (destinationRect (tileScope host this coords across down) h w).x ≤
        (destinationRect (tileScope host this coords across down) h w').x) ∧
    (∀ h h' w : ℕ, h ≤ h' →
      (destinationRect (tileScope host this coords across down) h w).y ≤
        (destinationRect (tileScope host this coords across down) h' w).y) ∧
    (∀ h : ℕ, tileWidth ≤
      (destinationRect (tileScope host this coords across down) h (across - 1)).x +
        (destinationRect (tileScope host this coords across down) h (across - 1)).width) ∧
    (∀ w : ℕ, tileHeight ≤
      (destinationRect (tileScope host this coords across down) (down - 1) w).y +
        (destinationRect (tileScope host this coords across down) (down - 1) w).height) ∧
    ∀ px py : ℤ, 0 ≤ px → px < tileWidth → 0 ≤ py → py < tileHeight →
      ∃ h w : ℕ, h < down ∧ w < across ∧
        (destinationRect (tileScope host this coords across down) h w).covers px py := by
  obtain ⟨hx0, hxmono, hxlast, hxcover⟩ := axis_spanned tileWidth across hw0 hacross
  obtain ⟨hy0, hymono, hylast, hycover⟩ := axis_spanned tileHeight down hh0 hdown
  simp only [destinationRect, tileScope, hwidth, hheight, Rect.covers]
  refine ⟨hx0, hy0, fun _ w w' hww => hxmono w w' hww, fun h h' _ hhh => hymono h h' hhh,
    fun _ => hxlast, fun _ => hylast, ?_⟩
  intro px py hpx0 hpx1 hpy0 hpy1
  obtain ⟨w, hw, hwx, hwx'⟩ := hxcover px hpx0 hpx1
  obtain ⟨h, hh, hhy, hhy'⟩ := hycover py hpy0 hpy1
  exact ⟨h, w, hh, hw, hwx, hwx', hhy, hhy'⟩

/-- C19, at the scenario tile of 256 by 256 pixels cut into 20 by 10 samples: the last
rectangles reach the edges and every pixel is covered. -/
theorem rectangles_span_tile_witness :
    (∀ h : ℕ, (256 : ℤ) ≤
      (destinationRect (tileScope scenarioHost scenarioLayer ⟨0, 0, 0⟩ (20 : ℕ) (10 : ℕ)) h
        (20 - 1)).x +
      (destinationRect (tileScope scenarioHost scenarioLayer ⟨0, 0, 0⟩ (20 : ℕ) (10 : ℕ)) h
        (20 - 1)).width) ∧
    ∀ px py : ℤ, 0 ≤ px → px < 256 → 0 ≤ py → py < 256 →
      ∃ h w : ℕ, h < 10 ∧ w < 20 ∧
        (destinationRect (tileScope scenarioHost scenarioLayer ⟨0, 0, 0⟩ (20 : ℕ) (10 : ℕ))
          h w).covers px py :=
  have key := rectangles_span_tile scenarioHost scenarioLayer ⟨0, 0, 0⟩ 256 256 20 10
    (by norm_num [scenarioLayer]) (by norm_num [scenarioLayer]) (by decide) (by decide)
    (by decide) (by decide)
  ⟨key.2.2.2.2.1, key.2.2.2.2.2.2⟩

/-- C18, as stated, fails: on the scenario tile of 256 pixels cut into 20 samples across the
sample size is `12.8` pixels and the painted width 13; sample `w = 2` starts at column 26
and holds columns `26..38`, sample `w = 3` starts at column 38; the two distinct cells
`(0, 2)` and `(0, 3)` share the pixel in column 38 of row 0. -/
theorem rectangles_overlap :
    ((0, 2) : ℕ × ℕ) ≠ (0, 3) ∧
    destinationRect (tileScope scenarioHost scenarioLayer ⟨0, 0, 0⟩ 20 10) 0 2 =
      ⟨26, 0, 13, 26⟩ ∧
    destinationRect (tileScope scenarioHost scenarioLayer ⟨0, 0, 0⟩ 20 10) 0 3 =
      ⟨38, 0, 13, 26⟩ ∧
    (destinationRect (tileScope scenarioHost scenarioLayer ⟨0, 0, 0⟩ 20 10) 0 2).covers 38 0 ∧
    (destinationRect (tileScope scenarioHost scenarioLayer ⟨0, 0, 0⟩ 20 10) 0 3).covers 38 0 := by
  refine ⟨by decide, by decide!, by decide!, by decide!, by decide!⟩

/-- Pieces of a whole size `k` that start at the multiples of `k` share no position. -/
theorem whole_steps_disjoint (k p : ℤ) (w w' : ℕ) (hne : w ≠ w')
    (h1 : (w : ℤ) * k ≤ p) (h2 : p < (w : ℤ) * k + k)
    (h3 : (w' : ℤ) * k ≤ p) (h4 : p < (w' : ℤ) * k + k) : False := by
  have hk : 0 < k := by omega
  rcases Nat.lt_or_gt_of_ne hne with hlt | hlt
  · have h5 : (w : ℤ) + 1 ≤ w' := by exact_mod_cast hlt
    have h6 : ((w : ℤ) + 1) * k ≤ (w' : ℤ) * k := mul_le_mul_of_nonneg_right h5 hk.le
    linarith
  · have h5 : (w' : ℤ) + 1 ≤ w := by exact_mod_cast hlt
    have h6 : ((w' : ℤ) + 1) * k ≤ (w : ℤ) * k := mul_le_mul_of_nonneg_right h5 hk.le
    linarith

/-- The start of sample `w` when the sample size is the whole number `k`. -/
theorem jsRound_whole_step (w : ℕ) (k : ℤ) : jsRound ((w : ℚ) * (k : ℚ)) = (w : ℤ) * k := by
  have h : (w : ℚ) * (k : ℚ) = (((w : ℤ) * k : ℤ) : ℚ) := by push_cast; ring
  rw [h, jsRound_intCast]

/-- C18, amended: for positive sample counts, when the sample sizes are whole numbers of
pixels (the tile's width and height are whole multiples of the sample counts), the
destination rectangles of two distinct sample cells share no pixel.  For every sample size,
whole or not, the rectangles of neighbouring cells overlap by at most one pixel column or
row: the next start is at least the start plus the painted size less one,
`round((w + 1) * s) ≥ round(w * s) + ceil(s) - 1`, along both axes. -/
theorem rectangles_disjoint_whole_pixels (host : Host) (this : Layer) (coords : Coords)
    (across down : ℚ) (_hacross : 0 < across) (_hdown : 0 < down) :
    (∀ (k l : ℤ) (h w h' w' : ℕ),
      this._tileWidth / across = k → this._tileHeight / down = l → (h, w) ≠ (h', w') →
      ¬ ∃ px py : ℤ,
        (destinationRect (tileScope host this coords across down) h w).covers px py ∧
        (destinationRect (tileScope host this coords across down) h' w').covers px py) ∧
    (∀ h w : ℕ,
      (destinationRect (tileScope host this coords across down) h w).x +
          (destinationRect (tileScope host this coords across down) h w).width - 1 ≤
        (destinationRect (tileScope host this coords across down) h (w + 1)).x ∧
      (destinationRect (tileScope host this coords across down) h w).y +
          (destinationRect (tileScope host this coords across down) h w).height - 1 ≤
        (destinationRect (tileScope host this coords across down) (h + 1) w).y) := by
  refine ⟨?_, ?_⟩
  · rintro k l h w h' w' hk hl hne ⟨px, py, hc, hc'⟩
    simp only [destinationRect, tileScope, Rect.covers, hk, hl, jsRound_whole_step,
      Int.ceil_intCast] at hc hc'
    by_cases hw : w = w'
    · have hh : h ≠ h' := fun e => hne (by rw [e, hw])
      exact whole_steps_disjoint l py h h' hh hc.2.2.1 hc.2.2.2 hc'.2.2.1 hc'.2.2.2
    · exact whole_steps_disjoint k px w w' hw hc.1 hc.2.1 hc'.1 hc'.2.1
  · intro h w
    constructor
    · simp only [destinationRect, tileScope]
      rw [next_sample_start]
      exact le_jsRound_add _ _
    · simp only [destinationRect, tileScope]
      rw [next_sample_start]
      exact le_jsRound_add _ _

/-- C18 amended, at the tile of 256 pixels: cut into 4 by 4 samples of 64 pixels the cells
`(0, 1)` and `(0, 2)` share no pixel; cut into 20 by 10 samples of `12.8` by `25.6` pixels
the cells next to `(0, 2)` start at most one pixel inside its rectangle. -/
theorem rectangles_disjoint_whole_pixels_witness :
    (¬ ∃ px py : ℤ,
      (destinationRect (tileScope wideHost (squareLayer 4 true) ⟨0, 0, 0⟩ 4 4) 0 1).covers
        px py ∧
      (destinationRect (tileScope wideHost (squareLayer 4 true) ⟨0, 0, 0⟩ 4 4) 0 2).covers
        px py) ∧
    (destinationRect (tileScope scenarioHost scenarioLayer ⟨0, 0, 0⟩ 20 10) 0 2).x +
        (destinationRect (tileScope scenarioHost scenarioLayer ⟨0, 0, 0⟩ 20 10) 0 2).width - 1 ≤
      (destinationRect (tileScope scenarioHost scenarioLayer ⟨0, 0, 0⟩ 20 10) 0 (2 + 1)).x ∧
    (destinationRect (tileScope scenarioHost scenarioLayer ⟨0, 0, 0⟩ 20 10) 0 2).y +
        (destinationRect (tileScope scenarioHost scenarioLayer ⟨0, 0, 0⟩ 20 10) 0 2).height - 1 ≤
      (destinationRect (tileScope scenarioHost scenarioLayer ⟨0, 0, 0⟩ 20 10) (0 + 1) 2).y :=
  ⟨(rectangles_disjoint_whole_pixels wideHost (squareLayer 4 true) ⟨0, 0, 0⟩ 4 4
      (by norm_num) (by norm_num)).1 64 64 0 1 0 2
      (by norm_num [squareLayer]) (by norm_num [squareLayer]) (by decide),
   ((rectangles_disjoint_whole_pixels scenarioHost scenarioLayer ⟨0, 0, 0⟩ 20 10
      (by norm_num) (by norm_num)).2 0 2).1,
   ((rectangles_disjoint_whole_pixels scenarioHost scenarioLayer ⟨0, 0, 0⟩ 20 10
      (by norm_num) (by norm_num)).2 0 2).2⟩

/-- Once a sample has passed the bounds filter and its value list has been read, a
receiver whose `options` hold `customDrawFunction` makes exactly one call, of the hook, with
that list and the rectangle `x = round(w * widthOfSampleInScreenPixels)`,
`y = yInTilePixels`, and the rounded-up sample sizes, whatever `pixelValuesToColorFn` is. -/
theorem loop2_customDraw (_this2 : Receiver) (rasters : Option Rasters) (s : TileScope)
    (unproject : LatLng) (lat : ℚ) (yInTilePixels : ℤ) (yInRasterPixels : Option ℤ) (w : ℕ)
    (values : List Value) (options : Options)
    (hpass : unproject.lng > s.minLng ∧ unproject.lng < s.maxLng)
    (hvalues : sampleValues rasters
      (cellIndices _this2 s lat unproject.lng yInRasterPixels).1
      (cellIndices _this2 s lat unproject.lng yInRasterPixels).2 = .ok values)
    (hoptions : _this2.options = some options)
    (hcustom : options.customDrawFunction = true) :
    _loop2 _this2 rasters s unproject lat yInTilePixels yInRasterPixels w =
      ⟨[.customDraw values (jsRound ((w : ℚ) * s.widthOfSampleInScreenPixels)) yInTilePixels
        s.widthOfSampleInScreenPixelsInt s.heightOfSampleInScreenPixelsInt], none⟩ := by
  unfold _loop2
  simp only [hpass, and_self, if_true, hvalues, hoptions, hcustom]

/-- C14, evaluated: on the layer over the in-memory square raster with both
`customDrawFunction` and `pixelValuesToColorFn` configured, and a tile inside the raster,
the first sample passes the bounds filter and the loop then reads the undeclared identifier
`rasters`: with no global of that name `createTile` throws a reference error and the hook
is never called, on the receiver the timer supplies as on the layer.  Were the identifier
bound to the layer's values and the callback to the layer, each of the four samples would
call the hook once with `[5]` and the rectangle of the claim, and `fillRect` never. -/
theorem createTile_customDraw_unreached :
    hookLayer.options.customDrawFunction = true ∧
    hookLayer.options.pixelValuesToColorFn.isSome = true ∧
    createTile insideHost hookLayer (hookLayer.receiver insideHost) none ⟨0, 0, 0⟩ =
      ⟨[], some .referenceError⟩ ∧
    createTile insideHost hookLayer (hookLayer.receiver insideHost) hookLayer.rasters
        ⟨0, 0, 0⟩ =
      ⟨[.customDraw [some 5] 0 0 128 128, .customDraw [some 5] 128 0 128 128,
        .customDraw [some 5] 0 128 128 128, .customDraw [some 5] 128 128 128 128], none⟩ ∧
    createTile insideHost hookLayer timerReceiver none ⟨0, 0, 0⟩ =
      ⟨[], some .referenceError⟩ := by
  refine ⟨rfl, rfl, by decide!, by decide!, by decide!⟩

/-- C15, as stated, fails: for the projection code 9999 `initBounds` throws the
unsupported-projection error, and `initialize`, whose body runs inside `try`/`catch`, hands
it to `console.error` and returns normally; the caller receives no error. -/
theorem initialize_unsupported_projection_caught :
    initBounds geographicEnv none (recodedRaster 9999) = .error (.thrown
      "georaster-layer-for-leaflet does not support rasters with the current georaster's projection") ∧
    (initLayer geographicEnv insideHost ⟨recodedRaster 9999, some 2, none, false⟩).logged =
      some (.thrown
        "georaster-layer-for-leaflet does not support rasters with the current georaster's projection") := by
  constructor <;> simp [initLayer, initProjector, initBounds, geographicEnv, recodedRaster]

/-- C15, amended: for every georaster whose projection is neither 4326 nor a recognised
UTM code, `initBounds` throws the unsupported-projection error; `initialize` catches it and
reports it with `console.error`, and returns normally with a layer that has no bounds and
no tile size. -/
theorem initialize_unsupported_projection_logged (env : ProjectionEnv) (host : Host)
    (options : InitOptions) (hgeo : options.georaster.projection ≠ 4326)
    (hutm : env.isUTM options.georaster.projection = false) :
    initProjector env options.georaster = .ok none ∧
    initBounds env none options.georaster = .error (.thrown
      "georaster-layer-for-leaflet does not support rasters with the current georaster's projection") ∧
    initLayer env host options = ⟨none, some (.thrown
      "georaster-layer-for-leaflet does not support rasters with the current georaster's projection")⟩ := by
  have hp : initProjector env options.georaster = .ok none := by
    simp [initProjector, hutm]
  have hb : initBounds env none options.georaster = .error (.thrown
      "georaster-layer-for-leaflet does not support rasters with the current georaster's projection") := by
    simp [initBounds, hgeo, hutm]
  refine ⟨hp, hb, ?_⟩
  simp only [initLayer, hp, hb]

/-- C15 amended, at the projection code 3857 and an environment that recognises the UTM
codes. -/
theorem initialize_unsupported_projection_logged_witness :
    initProjector (utmEnv scaleProjector) (recodedRaster 3857) = .ok none ∧
    initBounds (utmEnv scaleProjector) none (recodedRaster 3857) = .error (.thrown
      "georaster-layer-for-leaflet does not support rasters with the current georaster's projection") ∧
    initLayer (utmEnv scaleProjector) scenarioHost ⟨recodedRaster 3857, none, none, false⟩ =
      ⟨none, some (.thrown
        "georaster-layer-for-leaflet does not support rasters with the current georaster's projection")⟩ :=
  initialize_unsupported_projection_logged (utmEnv scaleProjector) scenarioHost
    ⟨recodedRaster 3857, none, none, false⟩ (by decide) (by decide)

/-- The errors `initProjector` can end in: the reference error of reading an undeclared
`proj4`, and the error about the missing `proj4`. -/
theorem initProjector_error (env : ProjectionEnv) (georaster : GeoRaster) (e : JSError)
    (h : initProjector env georaster = .error e) :
    e = .referenceError ∨ e = .thrown
      "proj4 must be found in the global scope in order to load a raster that uses a UTM projection" := by
  by_cases hutm : env.isUTM georaster.projection = true
  · cases hp4 : env.proj4 with
    | undeclared =>
      simp only [initProjector, hutm, if_true, hp4] at h
      exact Or.inl (Except.error.inj h).symm
    | falsy =>
      simp only [initProjector, hutm, if_true, hp4] at h
      exact Or.inr (Except.error.inj h).symm
    | loaded proj4 =>
      simp only [initProjector, hutm, if_true, hp4] at h
      exact absurd h (by simp)
  · simp only [initProjector, hutm, if_false] at h
    exact absurd h (by simp)

/-- The errors `initBounds` can end in: the type error of reading `forward` on a missing
projector, and the unsupported-projection error. -/
theorem initBounds_error (env : ProjectionEnv) (projector : Option Projector)
    (georaster : GeoRaster) (e : JSError) (h : initBounds env projector georaster = .error e) :
    e = .typeError ∨ e = .thrown
      "georaster-layer-for-leaflet does not support rasters with the current georaster's projection" := by
  by_cases hgeo : georaster.projection = 4326
  · simp only [initBounds, hgeo, if_true] at h
    exact absurd h (by simp)
  · by_cases hutm : env.isUTM georaster.projection = true
    · cases projector with
      | none =>
        simp only [initBounds, hgeo, if_false, hutm, if_true] at h
        exact Or.inl (Except.error.inj h).symm
      | some projector =>
        simp only [initBounds, hgeo, if_false, hutm, if_true] at h
        exact absurd h (by simp)
    · simp only [initBounds, hgeo, if_false, hutm] at h
      exact Or.inr (Except.error.inj h).symm

/-- C16, as stated, fails: for the single-band raster opened from a URL, with no
`pixelValuesToColorFn`, `initialize` throws the error about the missing option as its last
statement, catches it itself and hands it to `console.error`; the constructor returns
normally, with a layer on which every property is assigned. -/
theorem initialize_missing_color_caught :
    urlRaster.sourceType = "url" ∧ urlRaster.numberOfRasters = 1 ∧
    (initLayer geographicEnv insideHost ⟨urlRaster, some 2, none, false⟩).logged =
      some (.thrown
        "pixelValuesToColorFn is a required option for single-band rasters initialized via URL") ∧
    (initLayer geographicEnv insideHost ⟨urlRaster, some 2, none, false⟩).layer.isSome = true := by
  refine ⟨rfl, rfl, ?_, ?_⟩ <;>
    simp [initLayer, initProjector, initBounds, geographicEnv, urlRaster, flatRaster]

/-- C16, amended: for every georaster with `sourceType` `'url'`, one band and no
`pixelValuesToColorFn`, whose projection is supported, `initialize` throws the error about
the missing option, catches it itself and reports it with `console.error`: the constructor
returns normally with every property of the layer assigned.  `initialize` reports this
error only in that case. -/
theorem initialize_missing_color_logged (env : ProjectionEnv) (host : Host)
    (options : InitOptions) :
    (∀ (projector : Option Projector) (bounds : LatLngBounds),
      initProjector env options.georaster = .ok projector →
      initBounds env projector options.georaster = .ok bounds →
      options.georaster.sourceType = "url" → options.georaster.numberOfRasters = 1 →
      options.pixelValuesToColorFn = none →
      (initLayer env host options).logged = some (.thrown
        "pixelValuesToColorFn is a required option for single-band rasters initialized via URL") ∧
      ∃ layer : Layer, (initLayer env host options).layer = some layer ∧
        layer._bounds = bounds ∧ layer.rasters = options.georaster.values ∧
        layer._tileWidth = host.getTileSize.x ∧ layer._tileHeight = host.getTileSize.y) ∧
    ((initLayer env host options).logged = some (.thrown
        "pixelValuesToColorFn is a required option for single-band rasters initialized via URL") →
      options.georaster.sourceType = "url" ∧ options.georaster.numberOfRasters = 1 ∧
        options.pixelValuesToColorFn = none) := by
  constructor
  · intro projector bounds hp hb hsrc hn hfn
    simp [initLayer, hp, hb, hsrc, hn, hfn]
  · intro hlogged
    unfold initLayer at hlogged
    cases hp : initProjector env options.georaster with
    | error e =>
      have he := initProjector_error env options.georaster e hp
      rcases he with he | he <;> simp [hp, he] at hlogged
    | ok projector =>
      cases hb : initBounds env projector options.georaster with
      | error e =>
        have he := initBounds_error env projector options.georaster e hb
        rcases he with he | he <;> simp [hp, hb, he] at hlogged
      | ok bounds =>
        simp only [hp, hb] at hlogged
        split at hlogged
        · rename_i hc
          exact ⟨hc.1, hc.2.1, Option.isNone_iff_eq_none.mp hc.2.2⟩
        · simp at hlogged

/-- C16 amended, at a single-band UTM raster opened from a URL, under the scaling
projector. -/
theorem initialize_missing_color_logged_witness :
    (initLayer (utmEnv scaleProjector) scenarioHost ⟨urlUtmRaster, none, none, true⟩).logged =
      some (.thrown
        "pixelValuesToColorFn is a required option for single-band rasters initialized via URL") ∧
    ∃ layer : Layer,
      (initLayer (utmEnv scaleProjector) scenarioHost ⟨urlUtmRaster, none, none, true⟩).layer =
        some layer ∧
      layer._bounds = latLngBounds ⟨0, 0⟩ ⟨1, 1⟩ ∧ layer.rasters = urlUtmRaster.values ∧
      layer._tileWidth = scenarioHost.getTileSize.x ∧
      layer._tileHeight = scenarioHost.getTileSize.y :=
  (initialize_missing_color_logged (utmEnv scaleProjector) scenarioHost
    ⟨urlUtmRaster, none, none, true⟩).1 (some scaleProjector) (latLngBounds ⟨0, 0⟩ ⟨1, 1⟩)
    (by simp [initProjector, utmEnv, urlUtmRaster, utmRaster])
    (by norm_num [initBounds, utmEnv, urlUtmRaster, utmRaster, scaleProjector])
    rfl rfl rfl

end GeoRasterLayer
